import Mathlib

/-!
Verification development for the `clearvirus` Telegram/Firebase dashboard bot
(`src/main.py`). The Python source is shallowly embedded: Firebase JSON nodes
become the inductive `Node`, Python dicts become ordered association lists
(CPython dicts preserve insertion order), handler functions become pure Lean
functions from (store, pending state, input) to (store, pending state, writes,
replies/screens). Machine-level caveats of the embedding are documented at each
definition.
-/

set_option maxHeartbeats 1000000

namespace ClearVirus

/-- A Firebase JSON node: scalar string, scalar number, or a record (Python
dict with insertion order preserved, modelled as an association list). -/
inductive Node : Type where
  | str : String → Node
  | num : Int → Node
  | dict : List (String × Node) → Node

/-- Python truthiness for the node values that occur in the store:
empty string, zero and empty dict are falsy (`x or y` picks `y` for these). -/
def pyTruthy : Node → Bool
  | .str s => !s.data.isEmpty
  | .num n => decide (n ≠ 0)
  | .dict f => !f.isEmpty

/-- Python `str()` of a scalar node. For dicts Python would print the brace
repr of the mapping; every use in the source either guards the dict case
separately or only compares the result with fixed lowercase words such as
"on"/"off", which no Python dict repr can equal (it always starts with a
brace), so an inert placeholder that is also never equal to those words is
a faithful stand-in. -/
def pyStr : Node → String
  | .str s => s
  | .num n => toString n
  | .dict _ => "[dict-repr]"

/-- First-match association-list lookup, modelling Python `dict.get`. -/
def lookupField : List (String × Node) → String → Option Node
  | [], _ => none
  | (k, v) :: rest, key => if k = key then some v else lookupField rest key

/-- Python dict assignment `d[k] = v`: replace in place when present,
append when absent. -/
def updateField : List (String × Node) → String → Node → List (String × Node)
  | [], key, v => [(key, v)]
  | (k, w) :: rest, key, v =>
    if k = key then (key, v) :: rest else (k, w) :: updateField rest key v

/-- Python `x.get(k) or default`: the attribute chain used all over the
source, returning `default` when the key is absent or its value is falsy. -/
def pyGetOr (fields : List (String × Node)) (key : String) (dflt : Node) : Node :=
  match lookupField fields key with
  | some v => if pyTruthy v then v else dflt
  | none => dflt

/-- `opt or default` on an already-fetched optional node (used for
`firebase_client.get_value(k) or {}`). -/
def pyOrNode (o : Option Node) (dflt : Node) : Node :=
  match o with
  | some v => if pyTruthy v then v else dflt
  | none => dflt

/-- Is this node a record?  Models `isinstance(x, dict)`. -/
def isDict : Node → Bool
  | .dict _ => true
  | _ => false

/-- Fields of a record node (empty for scalars; all uses are guarded in the
theorems exactly where CPython would raise `AttributeError` on a scalar). -/
def dictFields : Node → List (String × Node)
  | .dict f => f
  | _ => []

/-- `FirebaseClient.get_value` for the single-segment keys the source uses
(`"aplikasi"`, an application key): a top-level field of the root record. -/
def getValue (root : Node) (key : String) : Option Node :=
  match root with
  | .dict f => lookupField f key
  | _ => none

/-- `FirebaseClient.list_keys`: the root mapping (`ref.get() or {}`),
as an ordered item list. -/
def listKeys (root : Node) : List (String × Node) :=
  dictFields root

/-- `FirebaseClient.set_value` on a slash-joined path, here taken already
split into segments (the slash-joining/splitting is Firebase's transport
concern).  Firebase `set` creates every intermediate record, replacing any
scalar found along the path. -/
def setValueAt (n : Node) (path : List String) (v : Node) : Node :=
  match path with
  | [] => v
  | k :: rest =>
    match n with
    | .dict fields =>
        .dict (updateField fields k
          (setValueAt ((lookupField fields k).getD (.dict [])) rest v))
    | _ => .dict [(k, setValueAt (.dict []) rest v)]

/-- A store write as recorded by the model: path segments plus value. -/
abbrev Write := List String × Node

/-! ## Flat list rendering (`list_command`, `dashboard_list` branch) -/

/-- One value cell of the flat list: records render as
`[object] N item`; scalars longer than 100 characters are cut to their
first 100 characters plus an ellipsis (source lines 252-258 / 358-364). -/
def valueRepr (v : Node) : String :=
  match v with
  | .dict f => "[object] " ++ toString f.length ++ " item"
  | _ =>
    let s := pyStr v
    if 100 < s.length then String.mk (s.data.take 100) ++ "..." else s

/-- One rendered line `key = value_repr`. -/
def formatLine (kv : String × Node) : String :=
  kv.1 ++ " = " ++ valueRepr kv.2

/-- The accumulation loop of `list_command`: keep appending whole lines while
`current_length + len(line) + 1 <= 3500`, stop (`break`) at the first line
that would push the running total past the cap. -/
def buildLines : List (String × Node) → Nat → List String
  | [], _ => []
  | kv :: rest, current =>
    let line := formatLine kv
    if 3500 < current + line.length + 1 then []
    else line :: buildLines rest (current + line.length + 1)

/-- The key lines of the flat list: at most `max_items = 50` items enter the
accumulation loop. -/
def keyLines (items : List (String × Node)) : List String :=
  buildLines (items.take 50) 0

/-- The `"... dan N key lainnya"` trailer. -/
def trailerLine (n : Nat) : String :=
  "... dan " ++ toString n ++ " key lainnya. Gunakan /get <key> untuk melihat detail."

/-- All lines of the flat list screen: key lines plus, whenever some item was
not rendered (`len(items) > len(lines)`), the trailer counting the rest. -/
def renderListLines (items : List (String × Node)) : List String :=
  let lines := keyLines items
  if lines.length < items.length
  then lines ++ [trailerLine (items.length - lines.length)]
  else lines

/-- `/list` reply text. -/
def listCommandReply (root : Node) : String :=
  let data := listKeys root
  if data.isEmpty then "Tidak ada data di Firebase"
  else String.intercalate "\n" (renderListLines data)

/-- Total rendered length of a line list, counting one newline per line,
mirroring `current_length` in the source. -/
def sumLen : List String → Nat
  | [] => 0
  | l :: ls => l.length + 1 + sumLen ls

theorem buildLines_take (items : List (String × Node)) (acc : Nat) :
    ∃ k, buildLines items acc = (items.take k).map formatLine ∧ k ≤ items.length := by
  induction items generalizing acc with
  | nil => exact ⟨0, rfl, Nat.le_refl 0⟩
  | cons kv rest ih =>
    by_cases h : 3500 < acc + (formatLine kv).length + 1
    · refine ⟨0, ?_, Nat.zero_le _⟩
      simp only [buildLines, if_pos h, List.take, List.map]
    · obtain ⟨k, hk, hkle⟩ := ih (acc + (formatLine kv).length + 1)
      refine ⟨k + 1, ?_, Nat.succ_le_succ hkle⟩
      simp only [buildLines, if_neg h, List.take, List.map, hk]

theorem buildLines_length_le (items : List (String × Node)) (acc : Nat) :
    (buildLines items acc).length ≤ items.length := by
  induction items generalizing acc with
  | nil => exact Nat.le_refl 0
  | cons kv rest ih =>
    by_cases h : 3500 < acc + (formatLine kv).length + 1
    · simp only [buildLines, if_pos h, List.length_nil]
      omega
    · simp only [buildLines, if_neg h, List.length_cons]
      exact Nat.succ_le_succ (ih _)

theorem buildLines_sumLen (items : List (String × Node)) (acc : Nat)
    (h : acc ≤ 3500) : acc + sumLen (buildLines items acc) ≤ 3500 := by
  induction items generalizing acc with
  | nil => simpa [buildLines, sumLen] using h
  | cons kv rest ih =>
    by_cases hc : 3500 < acc + (formatLine kv).length + 1
    · simp only [buildLines, if_pos hc, sumLen]
      omega
    · have := ih (acc + (formatLine kv).length + 1) (Nat.le_of_not_lt hc)
      simp only [buildLines, if_neg hc, sumLen]
      omega

theorem map_take_self_length {α β : Type} (f : α → β) (l : List α) (k : Nat) :
    (l.take k).map f = (l.take ((l.take k).length)).map f := by
  rcases Nat.le_total k l.length with h | h
  · rw [List.length_take, Nat.min_eq_left h]
  · rw [List.take_of_length_le h, List.take_length]

theorem keyLines_eq_map_take (items : List (String × Node)) :
    keyLines items = (items.take (keyLines items).length).map formatLine ∧
      (keyLines items).length ≤ 50 := by
  obtain ⟨k, hk, _⟩ := buildLines_take (items.take 50) 0
  have hlen : (keyLines items).length ≤ 50 := by
    have h1 := buildLines_length_le (items.take 50) 0
    have h2 : (items.take 50).length ≤ 50 := by
      simp [List.length_take]
    exact le_trans h1 h2
  refine ⟨?_, hlen⟩
  have hkeq : keyLines items = (items.take (min k 50)).map formatLine := by
    show buildLines (items.take 50) 0 = _
    rw [hk, List.take_take, Nat.min_comm]
  have hlen2 : (keyLines items).length = (items.take (min k 50)).length := by
    rw [hkeq, List.length_map]
  rw [hlen2, hkeq]
  exact map_take_self_length formatLine items (min k 50)

/-- C8: in the full list screen, scalar values longer than 100 characters
are truncated with a trailing ellipsis, the 3500-character cap is checked
per accumulated line so that every rendered key line is a complete
`key = value` line (never cut mid-line), and when any keys are omitted the
output ends with a trailer whose count equals exactly the number of omitted
keys. -/
theorem c8_list_truncation (items : List (String × Node))
    (h : (keyLines items).length < items.length) :
    keyLines items = (items.take (keyLines items).length).map formatLine ∧
    (∀ v : Node, isDict v = false → 100 < (pyStr v).length →
        valueRepr v = String.mk ((pyStr v).data.take 100) ++ "...") ∧
    sumLen (keyLines items) ≤ 3500 ∧
    renderListLines items =
      keyLines items ++ [trailerLine (items.length - (keyLines items).length)] := by
  refine ⟨(keyLines_eq_map_take items).1, ?_, ?_, ?_⟩
  · intro v hv hlen
    cases v with
    | str s => simp only [valueRepr, pyStr] at *; rw [if_pos hlen]
    | num n => simp only [valueRepr, pyStr] at *; rw [if_pos hlen]
    | dict f => simp [isDict] at hv
  · simpa using buildLines_sumLen (items.take 50) 0 (Nat.zero_le _)
  · simp only [renderListLines, if_pos h]

/-- Witness for C8 at a concrete 51-item root mapping: 50 key lines are
rendered and one key is omitted, so the trailer is present. -/
theorem c8_list_truncation_witness :
    (keyLines (List.replicate 51 ("k", Node.str "v"))).length <
      (List.replicate 51 ("k", Node.str "v")).length ∧
    (keyLines (List.replicate 51 ("k", Node.str "v")) =
      ((List.replicate 51 ("k", Node.str "v")).take
        (keyLines (List.replicate 51 ("k", Node.str "v"))).length).map formatLine ∧
    (∀ v : Node, isDict v = false → 100 < (pyStr v).length →
        valueRepr v = String.mk ((pyStr v).data.take 100) ++ "...") ∧
    sumLen (keyLines (List.replicate 51 ("k", Node.str "v"))) ≤ 3500 ∧
    renderListLines (List.replicate 51 ("k", Node.str "v")) =
      keyLines (List.replicate 51 ("k", Node.str "v")) ++
        [trailerLine ((List.replicate 51 ("k", Node.str "v")).length -
          (keyLines (List.replicate 51 ("k", Node.str "v"))).length)]) :=
  ⟨by decide, c8_list_truncation _ (by decide)⟩

/-- C10: the full list screen renders at most 50 key lines regardless of the
remaining character budget, and the omitted-keys trailer counts every item
beyond the rendered lines, including the ones dropped solely by the 50-item
limit. -/
theorem c10_fifty_item_limit (items : List (String × Node))
    (h : 50 < items.length) :
    (keyLines items).length ≤ 50 ∧
    renderListLines items =
      keyLines items ++ [trailerLine (items.length - (keyLines items).length)] ∧
    items.length - 50 ≤ items.length - (keyLines items).length := by
  have hle : (keyLines items).length ≤ 50 := (keyLines_eq_map_take items).2
  have hlt : (keyLines items).length < items.length := lt_of_le_of_lt hle h
  exact ⟨hle, by simp only [renderListLines, if_pos hlt], by omega⟩

/-- Witness for C10 at a concrete 60-item root mapping with short values:
the character budget is far from exhausted, yet only 50 lines render and the
trailer counts the 10 items dropped by the item limit. -/
theorem c10_fifty_item_limit_witness :
    50 < (List.replicate 60 ("a", Node.num 7)).length ∧
    ((keyLines (List.replicate 60 ("a", Node.num 7))).length ≤ 50 ∧
    renderListLines (List.replicate 60 ("a", Node.num 7)) =
      keyLines (List.replicate 60 ("a", Node.num 7)) ++
        [trailerLine ((List.replicate 60 ("a", Node.num 7)).length -
          (keyLines (List.replicate 60 ("a", Node.num 7))).length)] ∧
    (List.replicate 60 ("a", Node.num 7)).length - 50 ≤
      (List.replicate 60 ("a", Node.num 7)).length -
        (keyLines (List.replicate 60 ("a", Node.num 7))).length) :=
  ⟨by decide, c10_fifty_item_limit _ (by decide)⟩

example : keyLines (List.replicate 3 ("k", Node.str "v")) = ["k = v", "k = v", "k = v"] := by decide

/-! ## Device grouping engine (`_parse_device_datetime`, `dashboard_devices:` branch) -/

/-- A calendar date (the `datetime.date` part). -/
structure Date where
  year : Nat
  month : Nat
  day : Nat
deriving DecidableEq, Repr

/-- A `datetime.datetime` value. -/
structure PyDateTime where
  year : Nat
  month : Nat
  day : Nat
  hour : Nat
  minute : Nat
  second : Nat
deriving DecidableEq, Repr

/-- `datetime.min`, the sentinel for unparsable device timestamps. -/
def pyDatetimeMin : PyDateTime := ⟨1, 1, 1, 0, 0, 0⟩

/-- `datetime.min.date()`. -/
def dateMin : Date := ⟨1, 1, 1⟩

/-- The `.date()` part of a datetime (`dt.strftime("%Y-%m-%d")` only reads
these fields). -/
def PyDateTime.dateOf (dt : PyDateTime) : Date := ⟨dt.year, dt.month, dt.day⟩

/-- Python `str.split(sep)` on character lists (all occurrences). -/
def splitChar (c : Char) : List Char → List (List Char)
  | [] => [[]]
  | x :: xs =>
    let r := splitChar c xs
    if x = c then [] :: r
    else
      match r with
      | [] => [[x]]
      | h :: t => (x :: h) :: t

/-- All characters are ASCII decimal digits.  CPython's `_strptime` regex
`\d` would additionally accept non-ASCII Unicode decimal digits; the claims
only concern ASCII timestamp strings, so the ASCII fragment is modelled. -/
def allDigits (l : List Char) : Bool := l.all Char.isDigit

/-- Numeric value of a digit string (what `int()` computes on it). -/
def digitsVal (l : List Char) : Nat := l.foldl (fun a c => a * 10 + (c.toNat - 48)) 0

/-- Gregorian leap year, as in `datetime`. -/
def isLeap (y : Nat) : Bool := y % 4 = 0 && (decide (y % 100 ≠ 0) || y % 400 = 0)

/-- Days in a month, as validated by the `datetime` constructor. -/
def daysInMonth (y m : Nat) : Nat :=
  if m = 2 then (if isLeap y then 29 else 28)
  else if m = 4 || m = 6 || m = 9 || m = 11 then 30
  else 31

/-- A 1-or-2-digit numeric field restricted to `lo..hi`, the semantics of
the `%d/%m/%H/%M/%S` patterns of `_strptime` (their regexes accept one or
two digits and exactly the in-range values; `"00"` is out of range for
`%d`/`%m` because their ranges start at 1). -/
def fieldNat2 (l : List Char) (lo hi : Nat) : Option Nat :=
  if allDigits l && (decide (l.length = 1) || decide (l.length = 2)) then
    let v := digitsVal l
    if lo ≤ v ∧ v ≤ hi then some v else none
  else none

/-- The `%Y` pattern: exactly four digits; year 0 is then rejected by the
`datetime` constructor (`MINYEAR = 1`). -/
def fieldYear4 (l : List Char) : Option Nat :=
  if allDigits l && decide (l.length = 4) then
    let v := digitsVal l
    if 1 ≤ v then some v else none
  else none

/-- Python whitespace: the characters matched by the regex `\s` class and
stripped by `str.strip()` (ASCII fragment; CPython additionally handles a
few Unicode space characters, irrelevant to the claims' ASCII inputs). -/
def isPyWs (c : Char) : Bool :=
  c = ' ' || c = '\t' || c = '\n' || c = '\r' || c = '\x0B' || c = '\x0C'

/-- `datetime.strptime(value, "%d/%m/%Y %H:%M:%S")`, returning `none` where
CPython raises.  `_strptime` compiles the format's space into the regex
`\s+`, so any nonempty run of whitespace separates the date part from the
time part; each field's regex must match within its part, the whole string
must be consumed, and the day must exist in the (leap-aware) month. -/
def strptimeDMY (s : String) : Option PyDateTime :=
  let dpart := s.data.takeWhile (fun c => !isPyWs c)
  let rest1 := s.data.drop dpart.length
  let wsrun := rest1.takeWhile isPyWs
  let tpart := rest1.drop wsrun.length
  if wsrun.isEmpty then none
  else
    match splitChar '/' dpart, splitChar ':' tpart with
    | [ds, ms, ys], [hs, mins, secs] =>
      match fieldNat2 ds 1 31, fieldNat2 ms 1 12, fieldYear4 ys,
            fieldNat2 hs 0 23, fieldNat2 mins 0 59, fieldNat2 secs 0 59 with
      | some d, some m, some y, some hh, some mi, some ss =>
        if d ≤ daysInMonth y m then some ⟨y, m, d, hh, mi, ss⟩ else none
      | _, _, _, _, _, _ => none
    | _, _ => none

/-- The timestamp candidate of `_parse_device_datetime`:
`data.get("waktu") or data.get("waktu_start")` for a record, nothing
otherwise. -/
def tsCandidate (data : Node) : Option Node :=
  match data with
  | .dict f =>
    match lookupField f "waktu" with
    | some v => if pyTruthy v then some v else lookupField f "waktu_start"
    | none => lookupField f "waktu_start"
  | _ => none

/-- `_parse_device_datetime` (source lines 33-42): `datetime.min` for a
non-record, a non-string candidate, or an unparsable string. -/
def parseDeviceDatetime (data : Node) : PyDateTime :=
  match tsCandidate data with
  | some (.str s) => (strptimeDMY s).getD pyDatetimeMin
  | _ => pyDatetimeMin

/-- Two-digit zero pad.  Months/days produced by `strftime` are in range. -/
def pad2 (n : Nat) : String := if n < 10 then "0" ++ toString n else toString n

/-- `dt.strftime("%Y-%m-%d")` as CPython produces it on glibc, the
reference platform: `%Y` prints the year unpadded — year 1 formats as
`"1-01-01"` — while `%m` and `%d` are zero-padded.  Consequently only
bucket keys with four-digit years (1000-9999) re-parse in
`_date_sort_key`; keys from earlier years fail the `%Y` pattern and fall
to the same `(datetime.min.date(), 1)` sentinel sort key as
`"unknown"`. -/
def formatDate (d : Date) : String :=
  toString d.year ++ "-" ++ pad2 d.month ++ "-" ++ pad2 d.day

/-- The bucket key assigned to one device record (source lines 502-511):
`"unknown"` for non-records and for records whose parsed datetime equals the
sentinel, otherwise the formatted date. -/
def bucketKeyOfDevice (data : Node) : String :=
  if isDict data then
    let dt := parseDeviceDatetime data
    if dt = pyDatetimeMin then "unknown" else formatDate dt.dateOf
  else "unknown"

/-- The parsed datetime carried alongside each grouped device. -/
def deviceDtOf (data : Node) : PyDateTime :=
  if isDict data then parseDeviceDatetime data else pyDatetimeMin

/-- A grouped device entry `(device_id, device_data, parsed datetime)`. -/
abbrev DevEntry := String × Node × PyDateTime

/-- `date_groups.setdefault(date_key, []).append(...)`: append to an
existing group, else append a fresh group at the end (dict insertion
order). -/
def addToGroups (groups : List (String × List DevEntry)) (key : String)
    (e : DevEntry) : List (String × List DevEntry) :=
  match groups with
  | [] => [(key, [e])]
  | (k, es) :: rest =>
    if k = key then (k, es ++ [e]) :: rest else (k, es) :: addToGroups rest key e

/-- The grouping loop over `devices.items()`. -/
def dateGroups (devices : List (String × Node)) : List (String × List DevEntry) :=
  devices.foldl
    (fun gs p => addToGroups gs (bucketKeyOfDevice p.2) (p.1, p.2, deviceDtOf p.2)) []

/-- `datetime.strptime(date_key, "%Y-%m-%d").date()` as used by
`_date_sort_key`, with the same component regexes as `strptimeDMY`. -/
def strptimeYMD (s : String) : Option Date :=
  match splitChar '-' s.data with
  | [ys, ms, ds] =>
    match fieldYear4 ys, fieldNat2 ms 1 12, fieldNat2 ds 1 31 with
    | some y, some m, some d =>
      if d ≤ daysInMonth y m then some ⟨y, m, d⟩ else none
    | _, _, _ => none
  | _ => none

/-- `_date_sort_key` (source lines 513-520): `("unknown"` and unparsable
keys map to `(datetime.min.date(), 1)`, real dates to `(date, 0)`. -/
def dateSortKey (s : String) : Date × Nat :=
  if s = "unknown" then (dateMin, 1)
  else
    match strptimeYMD s with
    | some d => (d, 0)
    | none => (dateMin, 1)

/-- Strict lexicographic order on dates (Python tuple/date comparison). -/
def dateLtP (a b : Date) : Prop :=
  a.year < b.year ∨
    (a.year = b.year ∧ (a.month < b.month ∨ (a.month = b.month ∧ a.day < b.day)))

instance (a b : Date) : Decidable (dateLtP a b) := by unfold dateLtP; infer_instance

/-- Strict lexicographic order on `(date, flag)` sort keys (Python tuple
comparison). -/
def keyLtP (p q : Date × Nat) : Prop :=
  dateLtP p.1 q.1 ∨ (p.1 = q.1 ∧ p.2 < q.2)

instance (p q : Date × Nat) : Decidable (keyLtP p q) := by unfold keyLtP; infer_instance

/-- The element order used by `sorted(date_groups.keys(), key=_date_sort_key,
reverse=True)`. -/
def bucketLt (a b : String) : Prop := keyLtP (dateSortKey a) (dateSortKey b)

instance (a b : String) : Decidable (bucketLt a b) := by unfold bucketLt; infer_instance

/-- Stable descending insertion: place `x` after every earlier element whose
key is strictly greater, before the first element not greater (so equal keys
keep their original relative order, as CPython's stable `sorted` does). -/
def insertDescBy (lt : α → α → Prop) [DecidableRel lt] (x : α) : List α → List α
  | [] => [x]
  | y :: ys => if lt x y then y :: insertDescBy lt x ys else x :: y :: ys

/-- `sorted(l, key=…, reverse=True)`: stable descending sort. -/
def sortDescBy (lt : α → α → Prop) [DecidableRel lt] : List α → List α
  | [] => []
  | x :: xs => insertDescBy lt x (sortDescBy lt xs)

theorem insertDescBy_perm (lt : α → α → Prop) [DecidableRel lt] (x : α)
    (l : List α) : (insertDescBy lt x l).Perm (x :: l) := by
  induction l with
  | nil => exact List.Perm.refl _
  | cons y ys ih =>
    by_cases h : lt x y
    · simp only [insertDescBy, if_pos h]
      exact ((ih.cons y).trans (List.Perm.swap x y ys))
    · simp only [insertDescBy, if_neg h]
      exact List.Perm.refl _

theorem sortDescBy_perm (lt : α → α → Prop) [DecidableRel lt] (l : List α) :
    (sortDescBy lt l).Perm l := by
  induction l with
  | nil => exact List.Perm.refl _
  | cons x xs ih =>
    exact (insertDescBy_perm lt x (sortDescBy lt xs)).trans (ih.cons x)

theorem mem_insertDescBy (lt : α → α → Prop) [DecidableRel lt] (x z : α)
    (l : List α) : z ∈ insertDescBy lt x l ↔ z = x ∨ z ∈ l := by
  rw [(insertDescBy_perm lt x l).mem_iff]
  simp

theorem pairwise_insertDescBy (lt : α → α → Prop) [DecidableRel lt]
    (hasymm : ∀ a b, lt a b → ¬ lt b a)
    (hnt : ∀ a b c, ¬ lt a b → ¬ lt b c → ¬ lt a c)
    (x : α) (l : List α) (hl : l.Pairwise (fun a b => ¬ lt a b)) :
    (insertDescBy lt x l).Pairwise (fun a b => ¬ lt a b) := by
  induction l with
  | nil => simp [insertDescBy]
  | cons y ys ih =>
    rw [List.pairwise_cons] at hl
    obtain ⟨hy, hys⟩ := hl
    by_cases h : lt x y
    · simp only [insertDescBy, if_pos h]
      rw [List.pairwise_cons]
      refine ⟨?_, ih hys⟩
      intro z hz
      rcases (mem_insertDescBy lt x z ys).mp hz with hzx | hzys
      · rw [hzx]; exact hasymm x y h
      · exact hy z hzys
    · simp only [insertDescBy, if_neg h]
      rw [List.pairwise_cons]
      refine ⟨?_, List.pairwise_cons.mpr ⟨hy, hys⟩⟩
      intro z hz
      rcases List.mem_cons.mp hz with hzy | hzys
      · rw [hzy]; exact h
      · exact hnt x y z h (hy z hzys)

theorem pairwise_sortDescBy (lt : α → α → Prop) [DecidableRel lt]
    (hasymm : ∀ a b, lt a b → ¬ lt b a)
    (hnt : ∀ a b c, ¬ lt a b → ¬ lt b c → ¬ lt a c)
    (l : List α) : (sortDescBy lt l).Pairwise (fun a b => ¬ lt a b) := by
  induction l with
  | nil => simp [sortDescBy]
  | cons x xs ih => exact pairwise_insertDescBy lt hasymm hnt x _ ih

theorem bucketLt_asymm (a b : String) : bucketLt a b → ¬ bucketLt b a := by
  unfold bucketLt keyLtP dateLtP
  rcases dateSortKey a with ⟨⟨y1, m1, d1⟩, f1⟩
  rcases dateSortKey b with ⟨⟨y2, m2, d2⟩, f2⟩
  simp only [Date.mk.injEq]
  omega

theorem bucketLt_negtrans (a b c : String) :
    ¬ bucketLt a b → ¬ bucketLt b c → ¬ bucketLt a c := by
  unfold bucketLt keyLtP dateLtP
  rcases dateSortKey a with ⟨⟨y1, m1, d1⟩, f1⟩
  rcases dateSortKey b with ⟨⟨y2, m2, d2⟩, f2⟩
  rcases dateSortKey c with ⟨⟨y3, m3, d3⟩, f3⟩
  simp only [Date.mk.injEq]
  omega

/-- `sorted_dates` for a devices record (source line 521). -/
def sortedDatesOf (devices : List (String × Node)) : List String :=
  sortDescBy bucketLt ((dateGroups devices).map Prod.fst)

theorem sortedDatesOf_pairwise (devices : List (String × Node)) :
    (sortedDatesOf devices).Pairwise (fun a b => ¬ bucketLt a b) :=
  pairwise_sortDescBy bucketLt bucketLt_asymm bucketLt_negtrans _

/-- The claim's bad-timestamp hypothesis: the candidate value is absent or
not a string, or it is a string that fails to parse. -/
def tsUnparsable (data : Node) : Prop :=
  (∀ s, tsCandidate data ≠ some (Node.str s)) ∨
  (∃ s, tsCandidate data = some (Node.str s) ∧ strptimeDMY s = none)

theorem parse_of_tsUnparsable (data : Node) (h : tsUnparsable data) :
    parseDeviceDatetime data = pyDatetimeMin := by
  unfold parseDeviceDatetime
  cases htc : tsCandidate data with
  | none => rfl
  | some v =>
    cases v with
    | str s =>
      have hn : strptimeDMY s = none := by
        rcases h with h1 | ⟨s2, hs2, hn⟩
        · exact absurd htc (h1 s)
        · rw [htc] at hs2
          injection hs2 with hv
          injection hv with hsv
          rw [hsv]
          exact hn
      show (strptimeDMY s).getD pyDatetimeMin = pyDatetimeMin
      rw [hn]
      rfl
    | num n => rfl
    | dict f => rfl

theorem bucketKey_unknown (data : Node) (h : tsUnparsable data) :
    bucketKeyOfDevice data = "unknown" := by
  unfold bucketKeyOfDevice
  cases data with
  | dict f =>
    rw [parse_of_tsUnparsable _ h]
    simp [isDict]
  | str s => rfl
  | num n => rfl

/-- C2 (amended): devices with an absent, non-string, or unparsable
timestamp are bucketed `"unknown"`; every bucket key that fails the
`%Y-%m-%d` re-parse — `"unknown"` itself, and any real bucket formatted
from a year below 1000, which glibc's unpadded `%Y` prints with fewer than
four digits — receives the same sentinel sort key `(0001-01-01, 1)`; and
in the descending-sorted bucket list `"unknown"` comes after every real
bucket whose key re-parses to a date later than the sentinel minimum date
(in the program: every bucket from a four-digit year).  Buckets sharing
the sentinel key tie with `"unknown"` and the stable sort leaves them in
first-insertion order, as the counterexample exhibits in both orders. -/
theorem c2_unknown_bucket_order (devices : List (String × Node))
    (i j : Nat) (d : Date)
    (hi : i < (sortedDatesOf devices).length)
    (hj : j < (sortedDatesOf devices).length)
    (h1 : dateSortKey ((sortedDatesOf devices).getD i "") = (d, 0))
    (h2 : (sortedDatesOf devices).getD j "" = "unknown")
    (h3 : dateLtP dateMin d) :
    (∀ data : Node, tsUnparsable data → bucketKeyOfDevice data = "unknown") ∧
    (∀ s : String, strptimeYMD s = none → dateSortKey s = (dateMin, 1)) ∧
    dateSortKey "unknown" = (dateMin, 1) ∧
    i < j := by
  have hpw := sortedDatesOf_pairwise devices
  rw [List.pairwise_iff_get] at hpw
  have hg1 : (sortedDatesOf devices).getD i "" = (sortedDatesOf devices).get ⟨i, hi⟩ := by
    rw [List.getD_eq_getElem?_getD, List.getElem?_eq_getElem hi]
    rfl
  have hg2 : (sortedDatesOf devices).getD j "" = (sortedDatesOf devices).get ⟨j, hj⟩ := by
    rw [List.getD_eq_getElem?_getD, List.getElem?_eq_getElem hj]
    rfl
  rw [hg1] at h1
  rw [hg2] at h2
  have hkey2 : dateSortKey ((sortedDatesOf devices).get ⟨j, hj⟩) = (dateMin, 1) := by
    rw [h2]
    decide
  have hne : i ≠ j := by
    intro he
    subst he
    rw [h1] at hkey2
    have : (0 : Nat) = 1 := congrArg Prod.snd hkey2
    omega
  refine ⟨fun data h => bucketKey_unknown data h, ?_, by decide, ?_⟩
  · intro s hs
    unfold dateSortKey
    by_cases hu : s = "unknown"
    · rw [if_pos hu]
    · rw [if_neg hu, hs]
  · by_contra hc
    have hji : j < i := by omega
    have hnlt := hpw ⟨j, hj⟩ ⟨i, hi⟩ hji
    apply hnlt
    unfold bucketLt
    rw [hkey2, h1]
    exact Or.inl h3

/-- A devices record holding one device with no parsable timestamp and one
device whose timestamp is one second past `datetime.min`. -/
def c2Devices : List (String × Node) :=
  [("d1", Node.num 5),
   ("d2", Node.dict [("waktu", Node.str "01/01/0001 00:00:01")])]

/-- The same two devices inserted in the opposite order. -/
def c2DevicesRev : List (String × Node) :=
  [("d2", Node.dict [("waktu", Node.str "01/01/0001 00:00:01")]),
   ("d1", Node.num 5)]

/-- C2 counterexample: the device dated `01/01/0001 00:00:01` — the
sentinel minimum date the claim covers — gets bucket key `"1-01-01"`
(glibc's `%Y` does not zero-pad), which fails the `%Y-%m-%d` re-parse and
receives the very same sentinel sort key `(0001-01-01, 1)` as `"unknown"`.
The stable descending sort therefore keeps first-insertion order between
them: with the unknown-timestamp device first the sorted bucket list puts
`"unknown"` BEFORE the real date bucket, refuting the claim that
`"unknown"` is ordered after every real date bucket for every possible set
of real date buckets; reversing the device order flips the two buckets,
showing the relative order is an insertion-order tie, not a rule. -/
theorem c2_counterexample :
    sortedDatesOf c2Devices = ["unknown", "1-01-01"] ∧
    dateSortKey "1-01-01" = (dateMin, 1) ∧
    dateSortKey "unknown" = (dateMin, 1) ∧
    sortedDatesOf c2DevicesRev = ["1-01-01", "unknown"] := by decide

/-- Devices witnessing the amended C2 at a concrete input: a real bucket
dated 2024-06-01 sorts before `"unknown"`. -/
def c2WitnessDevices : List (String × Node) :=
  [("a", Node.dict [("waktu", Node.str "01/06/2024 10:00:00")]),
   ("b", Node.num 1)]

theorem c2_unknown_bucket_order_witness :
    (0 < (sortedDatesOf c2WitnessDevices).length ∧
     1 < (sortedDatesOf c2WitnessDevices).length ∧
     dateSortKey ((sortedDatesOf c2WitnessDevices).getD 0 "") = (⟨2024, 6, 1⟩, 0) ∧
     (sortedDatesOf c2WitnessDevices).getD 1 "" = "unknown" ∧
     dateLtP dateMin ⟨2024, 6, 1⟩) ∧
    ((∀ data : Node, tsUnparsable data → bucketKeyOfDevice data = "unknown") ∧
     (∀ s : String, strptimeYMD s = none → dateSortKey s = (dateMin, 1)) ∧
     dateSortKey "unknown" = (dateMin, 1) ∧
     0 < 1) :=
  ⟨⟨by decide, by decide, by decide, by decide, by decide⟩,
   c2_unknown_bucket_order c2WitnessDevices 0 1 ⟨2024, 6, 1⟩
     (by decide) (by decide) (by decide) (by decide) (by decide)⟩

example : strptimeDMY "29/02/2024 23:59:59" = some ⟨2024, 2, 29, 23, 59, 59⟩ := by decide
example : strptimeDMY "29/02/2023 00:00:00" = none := by decide
example : strptimeDMY "01/06/2024 10:00" = none := by decide
example : strptimeDMY "01/06/2024  10:00:00" = some ⟨2024, 6, 1, 10, 0, 0⟩ := by decide
example : strptimeDMY "01/06/2024 10:00:00 " = none := by decide
example : formatDate ⟨1, 1, 1⟩ = "1-01-01" := by decide
example : parseDeviceDatetime (Node.dict [("waktu", Node.str ""), ("waktu_start", Node.str "02/06/2024 01:02:03")]) = ⟨2024, 6, 2, 1, 2, 3⟩ := by decide

/-! ## Devices screen with date pagination (`dashboard_devices:` branch) -/

/-- Strict lexicographic order on datetimes (Python `datetime` comparison),
used by the within-bucket `sorted(..., key=lambda item: item[2],
reverse=True)`. -/
def dtLtP (a b : PyDateTime) : Prop :=
  a.year < b.year ∨ (a.year = b.year ∧
    (a.month < b.month ∨ (a.month = b.month ∧
      (a.day < b.day ∨ (a.day = b.day ∧
        (a.hour < b.hour ∨ (a.hour = b.hour ∧
          (a.minute < b.minute ∨ (a.minute = b.minute ∧
            a.second < b.second)))))))))

instance (a b : PyDateTime) : Decidable (dtLtP a b) := by unfold dtLtP; infer_instance

/-- Element order for within-bucket device sorting (compare the parsed
datetime component). -/
def entryLt (e1 e2 : DevEntry) : Prop := dtLtP e1.2.2 e2.2.2

instance (e1 e2 : DevEntry) : Decidable (entryLt e1 e2) := by unfold entryLt; infer_instance

/-- An inline keyboard button: (label, callback_data). -/
abbrev Button := String × String

/-- A rendered screen: text plus keyboard rows. -/
abbrev Screen := String × List (List Button)

/-- Association lookup among the date groups (`date_groups[selected_date]`,
guarded so the key is always present). -/
def lookupGroupList : List (String × List DevEntry) → String → List DevEntry
  | [], _ => []
  | (k, es) :: rest, key => if k = key then es else lookupGroupList rest key

/-- The `devices` value of the branch:
`(app_data.get("perangkat") or {}) if isinstance(app_data, dict) else {}`
over `app_data = firebase_client.get_value(app_key) or {}`. -/
def devicesNodeOf (root : Node) (appKey : String) : Node :=
  let app_data := pyOrNode (getValue root appKey) (.dict [])
  if isDict app_data then pyGetOr (dictFields app_data) "perangkat" (.dict []) else .dict []

/-- `sorted_dates` of the devices screen. -/
def devicesSortedDates (root : Node) (appKey : String) : List String :=
  sortedDatesOf (dictFields (devicesNodeOf root appKey))

/-- The effective selected date: an empty or unknown-to-the-groups parameter
falls back to the most recent bucket `sorted_dates[0]` (source lines
522-523). -/
def devicesEffectiveSelected (root : Node) (appKey selectedDate : String) : String :=
  let groups := dateGroups (dictFields (devicesNodeOf root appKey))
  if selectedDate = "" ∨ selectedDate ∉ groups.map Prod.fst
  then (devicesSortedDates root appKey).headD ""
  else selectedDate

/-- The pagination row (source lines 539-556): a "previous day" button at
`sorted_dates[idx+1]` when that position exists, then a "next day" button at
`sorted_dates[idx-1]` when `idx >= 1`. -/
def devicesPaginationRow (root : Node) (appKey selectedDate : String) : List Button :=
  let sorted := devicesSortedDates root appKey
  let sel := devicesEffectiveSelected root appKey selectedDate
  let idx := sorted.indexOf sel
  (if idx + 1 < sorted.length then
    [("⬅️ Hari sebelumnya", "dashboard_devices:" ++ appKey ++ ":" ++ sorted.getD (idx + 1) "")]
   else []) ++
  (if 1 ≤ idx then
    [("Hari berikutnya ➡️", "dashboard_devices:" ++ appKey ++ ":" ++ sorted.getD (idx - 1) "")]
   else [])

/-- The per-device button rows of the selected bucket, sorted descending by
parsed timestamp (source lines 524-533). -/
def devicesGroupButtons (root : Node) (appKey selectedDate : String) : List (List Button) :=
  let groups := dateGroups (dictFields (devicesNodeOf root appKey))
  let sel := devicesEffectiveSelected root appKey selectedDate
  let groupSorted := sortDescBy entryLt (lookupGroupList groups sel)
  groupSorted.map (fun e =>
    [((if isDict e.2.1 then pyStr (pyGetOr (dictFields e.2.1) "nama_perangkat" (.str e.1))
       else pyStr e.2.1),
      "dashboard_device:" ++ appKey ++ ":" ++ e.1)])

/-- The full `dashboard_devices:` branch (source lines 480-567). -/
def dashboardDevices (root : Node) (appKey selectedDate : String) : Screen :=
  let devices := devicesNodeOf root appKey
  if pyTruthy devices = false then
    ("Tidak ada data perangkat untuk aplikasi '" ++ appKey ++ "'.",
     [[("⬅️ Kembali ke aplikasi", "dashboard_app:" ++ appKey)],
      [("📊 Kembali ke dashboard", "dashboard_refresh")]])
  else
    let sel := devicesEffectiveSelected root appKey selectedDate
    let textDate := if sel = "unknown" then "Tanggal tidak diketahui" else sel
    let text := "📱 Perangkat aplikasi: " ++ appKey ++ "\nTanggal: " ++ textDate
      ++ "\nPilih perangkat:"
    let pagRow := devicesPaginationRow root appKey selectedDate
    let keyboard := devicesGroupButtons root appKey selectedDate
      ++ (if pagRow.isEmpty then [] else [pagRow])
      ++ [[("⬅️ Kembali ke aplikasi", "dashboard_app:" ++ appKey)],
          [("📊 Kembali ke dashboard", "dashboard_refresh")]]
    (text, keyboard)

theorem addToGroups_ne_nil (groups : List (String × List DevEntry))
    (key : String) (e : DevEntry) : addToGroups groups key e ≠ [] := by
  cases groups with
  | nil => simp [addToGroups]
  | cons g rest =>
    rcases g with ⟨k, es⟩
    by_cases h : k = key <;> simp [addToGroups, h]

theorem dateGroups_ne_nil (devices : List (String × Node)) (h : devices ≠ []) :
    dateGroups devices ≠ [] := by
  unfold dateGroups
  cases devices with
  | nil => exact absurd rfl h
  | cons p rest =>
    have aux : ∀ (l : List (String × Node)) (gs : List (String × List DevEntry)),
        gs ≠ [] →
        l.foldl (fun gs p =>
          addToGroups gs (bucketKeyOfDevice p.2) (p.1, p.2, deviceDtOf p.2)) gs ≠ [] := by
      intro l
      induction l with
      | nil => intro gs hgs; exact hgs
      | cons q qs ih =>
        intro gs _
        exact ih _ (addToGroups_ne_nil gs _ _)
    exact aux rest _ (addToGroups_ne_nil [] _ _)


theorem headD_mem {α : Type} (l : List α) (d : α) (h : l ≠ []) : l.headD d ∈ l := by
  cases l with
  | nil => exact absurd rfl h
  | cons a as => simp [List.headD]

/-- C3: on every devices screen (with devices present), the effective
selected bucket is a member of the descending-sorted bucket list at some
position `idx`; the "previous day" button is present iff position `idx+1`
exists and its action token targets exactly the bucket at `idx+1` (the
next-older bucket, by the descending-order fact below); the "next day"
button is present iff `idx >= 1` and targets exactly the bucket at `idx-1`
(the next-newer bucket); the bucket list is sorted descending (no later
element is greater); and the screen keyboard is the device rows, then the
pagination row when nonempty, then the two back rows. -/
theorem c3_pagination_directions (root : Node) (ak sp : String)
    (hd : isDict (devicesNodeOf root ak) = true)
    (hne : (dictFields (devicesNodeOf root ak)).isEmpty = false) :
    devicesEffectiveSelected root ak sp ∈ devicesSortedDates root ak ∧
    (devicesSortedDates root ak).indexOf (devicesEffectiveSelected root ak sp) <
      (devicesSortedDates root ak).length ∧
    ((∃ cb, ("⬅️ Hari sebelumnya", cb) ∈ devicesPaginationRow root ak sp) ↔
      (devicesSortedDates root ak).indexOf (devicesEffectiveSelected root ak sp) + 1 <
        (devicesSortedDates root ak).length) ∧
    (∀ cb, ("⬅️ Hari sebelumnya", cb) ∈ devicesPaginationRow root ak sp →
      cb = "dashboard_devices:" ++ ak ++ ":" ++
        (devicesSortedDates root ak).getD
          ((devicesSortedDates root ak).indexOf (devicesEffectiveSelected root ak sp) + 1) "") ∧
    ((∃ cb, ("Hari berikutnya ➡️", cb) ∈ devicesPaginationRow root ak sp) ↔
      1 ≤ (devicesSortedDates root ak).indexOf (devicesEffectiveSelected root ak sp)) ∧
    (∀ cb, ("Hari berikutnya ➡️", cb) ∈ devicesPaginationRow root ak sp →
      cb = "dashboard_devices:" ++ ak ++ ":" ++
        (devicesSortedDates root ak).getD
          ((devicesSortedDates root ak).indexOf (devicesEffectiveSelected root ak sp) - 1) "") ∧
    (∀ p q, p < q → q < (devicesSortedDates root ak).length →
      ¬ bucketLt ((devicesSortedDates root ak).getD p "")
        ((devicesSortedDates root ak).getD q "")) ∧
    (dashboardDevices root ak sp).2 =
      devicesGroupButtons root ak sp
        ++ (if (devicesPaginationRow root ak sp).isEmpty then []
            else [devicesPaginationRow root ak sp])
        ++ [[("⬅️ Kembali ke aplikasi", "dashboard_app:" ++ ak)],
            [("📊 Kembali ke dashboard", "dashboard_refresh")]] := by
  obtain ⟨f, hdev⟩ : ∃ f, devicesNodeOf root ak = .dict f := by
    cases hx : devicesNodeOf root ak with
    | dict f => exact ⟨f, rfl⟩
    | str s => rw [hx] at hd; simp [isDict] at hd
    | num n => rw [hx] at hd; simp [isDict] at hd
  have hne2 : dictFields (devicesNodeOf root ak) ≠ [] := by
    intro h0
    rw [h0] at hne
    simp [List.isEmpty] at hne
  have hfne : f ≠ [] := by
    rw [hdev] at hne2
    simpa [dictFields] using hne2
  have hLperm : (devicesSortedDates root ak).Perm
      ((dateGroups (dictFields (devicesNodeOf root ak))).map Prod.fst) :=
    sortDescBy_perm _ _
  have hgroups_ne : dateGroups (dictFields (devicesNodeOf root ak)) ≠ [] :=
    dateGroups_ne_nil _ hne2
  have hLne : devicesSortedDates root ak ≠ [] := by
    intro h0
    have hlen := hLperm.length_eq
    rw [h0] at hlen
    have hmapnil : (dateGroups (dictFields (devicesNodeOf root ak))).map Prod.fst = [] := by
      have : ((dateGroups (dictFields (devicesNodeOf root ak))).map Prod.fst).length = 0 :=
        hlen.symm
      exact List.length_eq_zero.mp this
    exact hgroups_ne (List.map_eq_nil_iff.mp hmapnil)
  have hsel_mem : devicesEffectiveSelected root ak sp ∈ devicesSortedDates root ak := by
    simp only [devicesEffectiveSelected]
    by_cases hc : sp = "" ∨
        sp ∉ (dateGroups (dictFields (devicesNodeOf root ak))).map Prod.fst
    · rw [if_pos hc]
      exact headD_mem _ _ hLne
    · rw [if_neg hc]
      push_neg at hc
      exact hLperm.mem_iff.mpr hc.2
  have hidx : (devicesSortedDates root ak).indexOf (devicesEffectiveSelected root ak sp) <
      (devicesSortedDates root ak).length := List.indexOf_lt_length.mpr hsel_mem
  have hlblne : ("⬅️ Hari sebelumnya" : String) ≠ "Hari berikutnya ➡️" := by decide
  refine ⟨hsel_mem, hidx, ?_, ?_, ?_, ?_, ?_, ?_⟩
  · simp only [devicesPaginationRow]
    by_cases h1 : (devicesSortedDates root ak).indexOf (devicesEffectiveSelected root ak sp)
        + 1 < (devicesSortedDates root ak).length
    · simp only [if_pos h1]
      constructor
      · intro _; exact h1
      · intro _
        refine ⟨"dashboard_devices:" ++ ak ++ ":" ++
          (devicesSortedDates root ak).getD
            ((devicesSortedDates root ak).indexOf
              (devicesEffectiveSelected root ak sp) + 1) "", ?_⟩
        exact List.mem_append.mpr (Or.inl (List.mem_singleton.mpr rfl))
    · simp only [if_neg h1]
      constructor
      · intro ⟨cb, hcb⟩
        by_cases h2 : 1 ≤ (devicesSortedDates root ak).indexOf
            (devicesEffectiveSelected root ak sp)
        · simp only [if_pos h2, List.nil_append, List.mem_singleton] at hcb
          exact absurd (congrArg Prod.fst hcb) hlblne
        · simp only [if_neg h2, List.append_nil] at hcb
          exact absurd hcb (List.not_mem_nil _)
      · intro h; exact absurd h h1
  · intro cb hcb
    simp only [devicesPaginationRow] at hcb
    by_cases h1 : (devicesSortedDates root ak).indexOf (devicesEffectiveSelected root ak sp)
        + 1 < (devicesSortedDates root ak).length
    · rw [if_pos h1] at hcb
      rcases List.mem_append.mp hcb with hmem | hmem
      · simp only [List.mem_singleton] at hmem
        exact congrArg Prod.snd hmem
      · by_cases h2 : 1 ≤ (devicesSortedDates root ak).indexOf
            (devicesEffectiveSelected root ak sp)
        · rw [if_pos h2] at hmem
          simp only [List.mem_singleton] at hmem
          exact absurd (congrArg Prod.fst hmem) hlblne
        · rw [if_neg h2] at hmem
          exact absurd hmem (List.not_mem_nil _)
    · rw [if_neg h1, List.nil_append] at hcb
      by_cases h2 : 1 ≤ (devicesSortedDates root ak).indexOf
          (devicesEffectiveSelected root ak sp)
      · rw [if_pos h2] at hcb
        simp only [List.mem_singleton] at hcb
        exact absurd (congrArg Prod.fst hcb) hlblne
      · rw [if_neg h2] at hcb
        exact absurd hcb (List.not_mem_nil _)
  · simp only [devicesPaginationRow]
    by_cases h2 : 1 ≤ (devicesSortedDates root ak).indexOf
        (devicesEffectiveSelected root ak sp)
    · simp only [if_pos h2]
      constructor
      · intro _; exact h2
      · intro _
        refine ⟨"dashboard_devices:" ++ ak ++ ":" ++
          (devicesSortedDates root ak).getD
            ((devicesSortedDates root ak).indexOf
              (devicesEffectiveSelected root ak sp) - 1) "", ?_⟩
        exact List.mem_append.mpr (Or.inr (List.mem_singleton.mpr rfl))
    · simp only [if_neg h2, List.append_nil]
      constructor
      · intro ⟨cb, hcb⟩
        by_cases h1 : (devicesSortedDates root ak).indexOf
            (devicesEffectiveSelected root ak sp) + 1 < (devicesSortedDates root ak).length
        · simp only [if_pos h1, List.mem_singleton] at hcb
          exact absurd (congrArg Prod.fst hcb).symm hlblne
        · simp only [if_neg h1] at hcb
          exact absurd hcb (List.not_mem_nil _)
      · intro h; exact absurd h h2
  · intro cb hcb
    simp only [devicesPaginationRow] at hcb
    rcases List.mem_append.mp hcb with hmem | hmem
    · by_cases h1 : (devicesSortedDates root ak).indexOf
          (devicesEffectiveSelected root ak sp) + 1 < (devicesSortedDates root ak).length
      · rw [if_pos h1] at hmem
        simp only [List.mem_singleton] at hmem
        exact absurd (congrArg Prod.fst hmem).symm hlblne
      · rw [if_neg h1] at hmem
        exact absurd hmem (List.not_mem_nil _)
    · by_cases h2 : 1 ≤ (devicesSortedDates root ak).indexOf
          (devicesEffectiveSelected root ak sp)
      · rw [if_pos h2] at hmem
        simp only [List.mem_singleton] at hmem
        exact congrArg Prod.snd hmem
      · rw [if_neg h2] at hmem
        exact absurd hmem (List.not_mem_nil _)
  · intro p q hpq hq
    have hpw := sortedDatesOf_pairwise (dictFields (devicesNodeOf root ak))
    rw [List.pairwise_iff_get] at hpw
    have hp : p < (devicesSortedDates root ak).length := lt_trans hpq hq
    have hgp : (devicesSortedDates root ak).getD p "" =
        (sortedDatesOf (dictFields (devicesNodeOf root ak))).get ⟨p, hp⟩ := by
      rw [List.getD_eq_getElem?_getD, List.getElem?_eq_getElem hp]
      rfl
    have hgq : (devicesSortedDates root ak).getD q "" =
        (sortedDatesOf (dictFields (devicesNodeOf root ak))).get ⟨q, hq⟩ := by
      rw [List.getD_eq_getElem?_getD, List.getElem?_eq_getElem hq]
      rfl
    rw [hgp, hgq]
    exact hpw ⟨p, hp⟩ ⟨q, hq⟩ hpq
  · have htr : pyTruthy (devicesNodeOf root ak) = true := by
      rw [hdev]
      cases f with
      | nil => exact absurd rfl hfne
      | cons a as => simp [pyTruthy, List.isEmpty]
    have hcond : ¬ (pyTruthy (devicesNodeOf root ak) = false) := by
      rw [htr]; simp
    simp only [dashboardDevices, if_neg hcond]

/-- A concrete store for the C3 witness: one app with three device-date
buckets. -/
def c3Root : Node :=
  Node.dict [("A", Node.dict [("perangkat", Node.dict
    [("d1", Node.dict [("waktu", Node.str "02/06/2024 10:00:00")]),
     ("d2", Node.dict [("waktu", Node.str "01/06/2024 09:00:00")]),
     ("d3", Node.dict [("waktu", Node.str "03/06/2024 08:00:00")])])])]

theorem c3_pagination_directions_witness :
    (isDict (devicesNodeOf c3Root "A") = true ∧
     (dictFields (devicesNodeOf c3Root "A")).isEmpty = false) ∧
    (devicesEffectiveSelected c3Root "A" "2024-06-02" ∈ devicesSortedDates c3Root "A" ∧
    (devicesSortedDates c3Root "A").indexOf (devicesEffectiveSelected c3Root "A" "2024-06-02") <
      (devicesSortedDates c3Root "A").length ∧
    ((∃ cb, ("⬅️ Hari sebelumnya", cb) ∈ devicesPaginationRow c3Root "A" "2024-06-02") ↔
      (devicesSortedDates c3Root "A").indexOf (devicesEffectiveSelected c3Root "A" "2024-06-02") + 1 <
        (devicesSortedDates c3Root "A").length) ∧
    (∀ cb, ("⬅️ Hari sebelumnya", cb) ∈ devicesPaginationRow c3Root "A" "2024-06-02" →
      cb = "dashboard_devices:" ++ "A" ++ ":" ++
        (devicesSortedDates c3Root "A").getD
          ((devicesSortedDates c3Root "A").indexOf (devicesEffectiveSelected c3Root "A" "2024-06-02") + 1) "") ∧
    ((∃ cb, ("Hari berikutnya ➡️", cb) ∈ devicesPaginationRow c3Root "A" "2024-06-02") ↔
      1 ≤ (devicesSortedDates c3Root "A").indexOf (devicesEffectiveSelected c3Root "A" "2024-06-02")) ∧
    (∀ cb, ("Hari berikutnya ➡️", cb) ∈ devicesPaginationRow c3Root "A" "2024-06-02" →
      cb = "dashboard_devices:" ++ "A" ++ ":" ++
        (devicesSortedDates c3Root "A").getD
          ((devicesSortedDates c3Root "A").indexOf (devicesEffectiveSelected c3Root "A" "2024-06-02") - 1) "") ∧
    (∀ p q, p < q → q < (devicesSortedDates c3Root "A").length →
      ¬ bucketLt ((devicesSortedDates c3Root "A").getD p "")
        ((devicesSortedDates c3Root "A").getD q "")) ∧
    (dashboardDevices c3Root "A" "2024-06-02").2 =
      devicesGroupButtons c3Root "A" "2024-06-02"
        ++ (if (devicesPaginationRow c3Root "A" "2024-06-02").isEmpty then []
            else [devicesPaginationRow c3Root "A" "2024-06-02"])
        ++ [[("⬅️ Kembali ke aplikasi", "dashboard_app:" ++ "A")],
            [("📊 Kembali ke dashboard", "dashboard_refresh")]]) :=
  ⟨⟨by decide, by decide⟩,
   c3_pagination_directions c3Root "A" "2024-06-02" (by decide) (by decide)⟩

example : devicesSortedDates c3Root "A" = ["2024-06-03", "2024-06-02", "2024-06-01"] := by decide
example : devicesPaginationRow c3Root "A" "2024-06-02" =
  [("⬅️ Hari sebelumnya", "dashboard_devices:A:2024-06-01"),
   ("Hari berikutnya ➡️", "dashboard_devices:A:2024-06-03")] := by decide

/-! ## Device detail view and the sound/flash toggles -/

/-- `x.get(k)` on an arbitrary node.  CPython would raise `AttributeError`
on a scalar here; the theorems below only apply this under record-shape
hypotheses (or to nodes just written by `set`, which are records). -/
def dictGet (n : Node) (k : String) : Option Node :=
  match n with
  | .dict f => lookupField f k
  | _ => none

/-- `devices.get(device_id) or {}`. -/
def deviceDataOf (root : Node) (appKey devId : String) : Node :=
  pyOrNode (dictGet (devicesNodeOf root appKey) devId) (.dict [])

/-- Python `str.lower()` restricted to its ASCII action (the handlers only
compare the result against fixed ASCII words). -/
def strToLower (s : String) : String := String.mk (s.data.map Char.toLower)

/-- `str(device_data.get(field) or "off").lower() if isinstance(device_data,
dict) else "off"` — the current-value read of the sound (line 610) and flash
(line 628) handlers. -/
def observedField (root : Node) (appKey devId fld : String) : String :=
  let device_data := deviceDataOf root appKey devId
  if isDict device_data
  then strToLower (pyStr (pyGetOr (dictFields device_data) fld (.str "off")))
  else "off"

/-- The observed sound state of a device. -/
def observedSuara (root : Node) (appKey devId : String) : String :=
  observedField root appKey devId "suara"

/-- The observed flash state of a device. -/
def observedFlash (root : Node) (appKey devId : String) : String :=
  observedField root appKey devId "flash"

/-- The static keyboard of the device detail view (source lines 135-149). -/
def detailKeyboard (appKey devId suaraLabel flashLabel : String) : List (List Button) :=
  [[("✉️ Kirim pesan", "dashboard_msg:" ++ appKey ++ ":" ++ devId)],
   [("🔊 Suara: " ++ suaraLabel, "dashboard_sound:" ++ appKey ++ ":" ++ devId),
    ("💡 Flash: " ++ flashLabel, "dashboard_flash:" ++ appKey ++ ":" ++ devId)],
   [("⬅️ Kembali ke daftar perangkat", "dashboard_devices:" ++ appKey)],
   [("📊 Kembali ke dashboard", "dashboard_refresh")]]

/-- A conditionally present line for a truthy field. -/
def truthyLineOf (fields : List (String × Node)) (key pre post : String) : List String :=
  match lookupField fields key with
  | some v => if pyTruthy v then [pre ++ pyStr v ++ post] else []
  | none => []

/-- A conditionally present line for a field that is merely present
(`is not None`). -/
def presentLineOf (fields : List (String × Node)) (key pre post : String) : List String :=
  match lookupField fields key with
  | some v => [pre ++ pyStr v ++ post]
  | none => []

/-- The `waktu`-or-`waktu_start` line of the detail view. -/
def waktuLineOf (fields : List (String × Node)) : List String :=
  let w := match lookupField fields "waktu" with
    | some v => if pyTruthy v then some v else lookupField fields "waktu_start"
    | none => lookupField fields "waktu_start"
  match w with
  | some v => if pyTruthy v then ["Waktu: " ++ pyStr v] else []
  | none => []

/-- `_build_device_detail_view` (source lines 107-150). -/
def buildDeviceDetailView (root : Node) (appKey devId : String) : Screen :=
  let device_data := deviceDataOf root appKey devId
  if pyTruthy device_data = false then
    ("Data perangkat '" ++ devId ++ "' untuk aplikasi '" ++ appKey ++ "' tidak ditemukan.",
     detailKeyboard appKey devId "off" "-")
  else
    let fieldLines :=
      if isDict device_data then
        truthyLineOf (dictFields device_data) "nama_perangkat" "Nama: " ""
          ++ presentLineOf (dictFields device_data) "persen_baterai" "Baterai: " "%"
          ++ truthyLineOf (dictFields device_data) "status_baterai" "Status baterai: " ""
          ++ waktuLineOf (dictFields device_data)
      else []
    let text := String.intercalate "\n"
      ((("📱 Perangkat: " ++ devId) :: fieldLines) ++ ["", "Pilih menu di bawah:"])
    let suaraLabel := pyStr (pyOrNode (dictGet device_data "suara") (.str "off"))
    let flashLabel := pyStr (pyOrNode (dictGet device_data "flash") (.str "-"))
    (text, detailKeyboard appKey devId suaraLabel flashLabel)

/-- The store path written by the sound toggle. -/
def suaraPath (appKey devId : String) : List String :=
  [appKey, "perangkat", devId, "suara"]

/-- The store path written by the flash cycle. -/
def flashPath (appKey devId : String) : List String :=
  [appKey, "perangkat", devId, "flash"]

/-- The `dashboard_sound:` branch (source lines 599-616): read, flip
on/off, write, re-render the detail view from the updated store. -/
def dashboardSound (root : Node) (appKey devId : String) :
    Node × List Write × Screen :=
  let current := observedSuara root appKey devId
  let newValue := if current = "on" then "off" else "on"
  let root2 := setValueAt root (suaraPath appKey devId) (.str newValue)
  (root2, [(suaraPath appKey devId, .str newValue)],
   buildDeviceDetailView root2 appKey devId)

/-- The flash successor in the fixed cycle (source lines 629-634):
`kedip -> on`, `on -> off`, anything else -> `kedip`. -/
def flashSucc (current : String) : String :=
  if current = "kedip" then "on" else if current = "on" then "off" else "kedip"

/-- The `dashboard_flash:` branch (source lines 617-639). -/
def dashboardFlash (root : Node) (appKey devId : String) :
    Node × List Write × Screen :=
  let current := observedFlash root appKey devId
  let newValue := flashSucc current
  let root2 := setValueAt root (flashPath appKey devId) (.str newValue)
  (root2, [(flashPath appKey devId, .str newValue)],
   buildDeviceDetailView root2 appKey devId)

theorem lookup_updateField (fields : List (String × Node)) (k : String) (v : Node) :
    lookupField (updateField fields k v) k = some v := by
  induction fields with
  | nil => simp [updateField, lookupField]
  | cons p rest ih =>
    rcases p with ⟨pk, pv⟩
    by_cases h : pk = k
    · simp [updateField, h, lookupField]
    · simp [updateField, h, lookupField, ih]

theorem updateField_ne_nil (fields : List (String × Node)) (k : String) (v : Node) :
    updateField fields k v ≠ [] := by
  cases fields with
  | nil => simp [updateField]
  | cons p rest =>
    rcases p with ⟨pk, pv⟩
    by_cases h : pk = k <;> simp [updateField, h]

/-- The child that `setValueAt` recurses into. -/
def childOf (n : Node) (k : String) : Node :=
  match n with
  | .dict f => (lookupField f k).getD (.dict [])
  | _ => .dict []

theorem setValueAt_cons_shape (n : Node) (k : String) (rest : List String) (v : Node) :
    ∃ fields, setValueAt n (k :: rest) v = .dict fields ∧
      lookupField fields k = some (setValueAt (childOf n k) rest v) ∧ fields ≠ [] := by
  cases n with
  | dict f =>
    refine ⟨updateField f k (setValueAt ((lookupField f k).getD (.dict [])) rest v),
      rfl, ?_, updateField_ne_nil _ _ _⟩
    rw [lookup_updateField]
    rfl
  | str s => exact ⟨[(k, setValueAt (.dict []) rest v)], rfl, by simp [lookupField, childOf], by simp⟩
  | num m => exact ⟨[(k, setValueAt (.dict []) rest v)], rfl, by simp [lookupField, childOf], by simp⟩

theorem pyTruthy_dict_of_ne_nil (f : List (String × Node)) (h : f ≠ []) :
    pyTruthy (.dict f) = true := by
  cases f with
  | nil => exact absurd rfl h
  | cons a as => simp [pyTruthy, List.isEmpty]

/-- Reading back the observed field value right after `set` wrote it at the
same `app/perangkat/device/field` path. -/
theorem observedField_after_set (root : Node) (a d fld nv : String)
    (htr : pyTruthy (.str nv) = true) :
    observedField (setValueAt root [a, "perangkat", d, fld] (.str nv)) a d fld =
      strToLower nv := by
  obtain ⟨f1, h1, hl1, hne1⟩ := setValueAt_cons_shape root a ["perangkat", d, fld] (.str nv)
  obtain ⟨f2, h2, hl2, hne2⟩ :=
    setValueAt_cons_shape (childOf root a) "perangkat" [d, fld] (.str nv)
  obtain ⟨f3, h3, hl3, hne3⟩ :=
    setValueAt_cons_shape (childOf (childOf root a) "perangkat") d [fld] (.str nv)
  obtain ⟨f4, h4, hl4, hne4⟩ :=
    setValueAt_cons_shape (childOf (childOf (childOf root a) "perangkat") d) fld [] (.str nv)
  rw [h2] at hl1
  rw [h3] at hl2
  rw [h4] at hl3
  have hl4s : lookupField f4 fld = some (.str nv) := hl4
  simp only [observedField, deviceDataOf, devicesNodeOf]
  rw [h1]
  simp only [getValue]
  rw [hl1]
  have hon1 : pyOrNode (some (Node.dict f2)) (Node.dict []) = Node.dict f2 := by
    simp [pyOrNode, pyTruthy_dict_of_ne_nil f2 hne2]
  rw [hon1]
  have hid2 : isDict (Node.dict f2) = true := rfl
  rw [if_pos hid2]
  have hget2 : pyGetOr (dictFields (Node.dict f2)) "perangkat" (.dict []) = Node.dict f3 := by
    simp [pyGetOr, dictFields, hl2, pyTruthy_dict_of_ne_nil f3 hne3]
  rw [hget2]
  simp only [dictGet]
  rw [hl3]
  have hon3 : pyOrNode (some (Node.dict f4)) (Node.dict []) = Node.dict f4 := by
    simp [pyOrNode, pyTruthy_dict_of_ne_nil f4 hne4]
  rw [hon3]
  have hid4 : isDict (Node.dict f4) = true := rfl
  rw [if_pos hid4]
  have hget4 : pyGetOr (dictFields (Node.dict f4)) fld (.str "off") = .str nv := by
    simp [pyGetOr, dictFields, hl4s, htr]
  rw [hget4]
  rfl

example : (strToLower "ON" = "on") := by decide
example : observedSuara (setValueAt (Node.num 3) (suaraPath "A" "D") (Node.str "on")) "A" "D" = "on" := by decide

/-- C5: for a device whose observed sound state is `on` or `off` (an absent
field reads as `off`), pressing the sound toggle twice returns the observed
sound state to its original value; each press writes exactly the flipped
value and renders the device-detail screen from the updated store.  The
record-shape hypothesis `hwf` pins the store layouts on which CPython would
not fault (a truthy scalar `perangkat` would raise before writing). -/
theorem c5_sound_toggle_involution (root : Node) (a d : String)
    (hobs : observedSuara root a d = "on" ∨ observedSuara root a d = "off")
    (hwf : isDict (devicesNodeOf root a) = true) :
    observedSuara (dashboardSound (dashboardSound root a d).1 a d).1 a d =
      observedSuara root a d ∧
    (dashboardSound root a d).2.1 =
      [(suaraPath a d, Node.str (if observedSuara root a d = "on" then "off" else "on"))] ∧
    (dashboardSound (dashboardSound root a d).1 a d).2.1 =
      [(suaraPath a d, Node.str (observedSuara root a d))] ∧
    (dashboardSound root a d).2.2 =
      buildDeviceDetailView (dashboardSound root a d).1 a d ∧
    (dashboardSound (dashboardSound root a d).1 a d).2.2 =
      buildDeviceDetailView (dashboardSound (dashboardSound root a d).1 a d).1 a d := by
  have hr1 : (dashboardSound root a d).1 =
      setValueAt root (suaraPath a d)
        (.str (if observedSuara root a d = "on" then "off" else "on")) := rfl
  rcases hobs with h | h
  · have hv1 : (if observedSuara root a d = "on" then "off" else "on") = "off" := by
      rw [if_pos h]
    have hobs1 : observedSuara (dashboardSound root a d).1 a d = "off" := by
      rw [hr1, hv1]
      exact observedField_after_set root a d "suara" "off" (by decide)
    have hobs2 : observedSuara (dashboardSound (dashboardSound root a d).1 a d).1 a d
        = "on" := by
      have hr2 : (dashboardSound (dashboardSound root a d).1 a d).1 =
          setValueAt (dashboardSound root a d).1 (suaraPath a d)
            (.str (if observedSuara (dashboardSound root a d).1 a d = "on"
              then "off" else "on")) := rfl
      have hv2 : (if observedSuara (dashboardSound root a d).1 a d = "on"
          then "off" else "on") = "on" := by
        rw [hobs1]
        decide
      rw [hr2, hv2]
      exact observedField_after_set _ a d "suara" "on" (by decide)
    refine ⟨by rw [hobs2, h], rfl, ?_, rfl, rfl⟩
    show [(suaraPath a d,
      Node.str (if observedSuara (dashboardSound root a d).1 a d = "on"
        then "off" else "on"))] = _
    rw [hobs1, h]
    rfl
  · have hv1 : (if observedSuara root a d = "on" then "off" else "on") = "on" := by
      rw [h]
      decide
    have hobs1 : observedSuara (dashboardSound root a d).1 a d = "on" := by
      rw [hr1, hv1]
      exact observedField_after_set root a d "suara" "on" (by decide)
    have hobs2 : observedSuara (dashboardSound (dashboardSound root a d).1 a d).1 a d
        = "off" := by
      have hr2 : (dashboardSound (dashboardSound root a d).1 a d).1 =
          setValueAt (dashboardSound root a d).1 (suaraPath a d)
            (.str (if observedSuara (dashboardSound root a d).1 a d = "on"
              then "off" else "on")) := rfl
      have hv2 : (if observedSuara (dashboardSound root a d).1 a d = "on"
          then "off" else "on") = "off" := by
        rw [hobs1]
        decide
      rw [hr2, hv2]
      exact observedField_after_set _ a d "suara" "off" (by decide)
    refine ⟨by rw [hobs2, h], rfl, ?_, rfl, rfl⟩
    show [(suaraPath a d,
      Node.str (if observedSuara (dashboardSound root a d).1 a d = "on"
        then "off" else "on"))] = _
    rw [hobs1, h]
    rfl

/-- A store for the C5 witness: device `D` of app `A` with sound `on`. -/
def c5Root : Node :=
  Node.dict [("A", Node.dict [("perangkat", Node.dict
    [("D", Node.dict [("suara", Node.str "on")])])])]

theorem c5_sound_toggle_involution_witness :
    ((observedSuara c5Root "A" "D" = "on" ∨ observedSuara c5Root "A" "D" = "off") ∧
      isDict (devicesNodeOf c5Root "A") = true) ∧
    (observedSuara (dashboardSound (dashboardSound c5Root "A" "D").1 "A" "D").1 "A" "D" =
      observedSuara c5Root "A" "D" ∧
    (dashboardSound c5Root "A" "D").2.1 =
      [(suaraPath "A" "D",
        Node.str (if observedSuara c5Root "A" "D" = "on" then "off" else "on"))] ∧
    (dashboardSound (dashboardSound c5Root "A" "D").1 "A" "D").2.1 =
      [(suaraPath "A" "D", Node.str (observedSuara c5Root "A" "D"))] ∧
    (dashboardSound c5Root "A" "D").2.2 =
      buildDeviceDetailView (dashboardSound c5Root "A" "D").1 "A" "D" ∧
    (dashboardSound (dashboardSound c5Root "A" "D").1 "A" "D").2.2 =
      buildDeviceDetailView
        (dashboardSound (dashboardSound c5Root "A" "D").1 "A" "D").1 "A" "D") :=
  ⟨⟨by decide, by decide⟩,
   c5_sound_toggle_involution c5Root "A" "D" (by decide) (by decide)⟩

/-- C6: for a device whose observed flash state lies in the cycle
`off -> kedip -> on -> off` (an absent field reads as `off`), each flash
press writes exactly the successor in the cycle and re-renders the detail
screen, the observed state returns to its original value after exactly three
presses, and is different from the original after one and after two
presses. -/
theorem c6_flash_cycle (root : Node) (a d : String)
    (hobs : observedFlash root a d = "off" ∨ observedFlash root a d = "kedip" ∨
      observedFlash root a d = "on")
    (hwf : isDict (devicesNodeOf root a) = true) :
    (dashboardFlash root a d).2.1 =
      [(flashPath a d, Node.str (flashSucc (observedFlash root a d)))] ∧
    observedFlash
      (dashboardFlash (dashboardFlash (dashboardFlash root a d).1 a d).1 a d).1 a d =
      observedFlash root a d ∧
    observedFlash (dashboardFlash (dashboardFlash root a d).1 a d).1 a d ≠
      observedFlash root a d ∧
    observedFlash (dashboardFlash root a d).1 a d ≠ observedFlash root a d ∧
    (dashboardFlash root a d).2.2 =
      buildDeviceDetailView (dashboardFlash root a d).1 a d ∧
    (dashboardFlash (dashboardFlash root a d).1 a d).2.2 =
      buildDeviceDetailView (dashboardFlash (dashboardFlash root a d).1 a d).1 a d ∧
    (dashboardFlash (dashboardFlash (dashboardFlash root a d).1 a d).1 a d).2.2 =
      buildDeviceDetailView
        (dashboardFlash (dashboardFlash (dashboardFlash root a d).1 a d).1 a d).1 a d := by
  have hr1 : (dashboardFlash root a d).1 =
      setValueAt root (flashPath a d)
        (.str (flashSucc (observedFlash root a d))) := rfl
  have hr2 : ∀ r : Node, (dashboardFlash r a d).1 =
      setValueAt r (flashPath a d) (.str (flashSucc (observedFlash r a d))) :=
    fun r => rfl
  have hafter : ∀ (r : Node) (v : String), pyTruthy (.str v) = true →
      observedFlash (setValueAt r (flashPath a d) (.str v)) a d = strToLower v :=
    fun r v hv => observedField_after_set r a d "flash" v hv
  rcases hobs with h | h | h
  all_goals {
    first
    | (have h1 : observedFlash (dashboardFlash root a d).1 a d = "kedip" := by
        rw [hr2 root, h]
        have := hafter root (flashSucc "off") (by decide)
        rw [this]
        decide
       have h2 : observedFlash (dashboardFlash (dashboardFlash root a d).1 a d).1 a d
          = "on" := by
        rw [hr2 _, h1]
        have := hafter (dashboardFlash root a d).1 (flashSucc "kedip") (by decide)
        rw [this]
        decide
       have h3 : observedFlash
          (dashboardFlash (dashboardFlash (dashboardFlash root a d).1 a d).1 a d).1 a d
          = "off" := by
        rw [hr2 _, h2]
        have := hafter (dashboardFlash (dashboardFlash root a d).1 a d).1
          (flashSucc "on") (by decide)
        rw [this]
        decide
       refine ⟨rfl, by rw [h3, h], by rw [h2, h]; decide, by rw [h1, h]; decide,
         rfl, rfl, rfl⟩)
    | (have h1 : observedFlash (dashboardFlash root a d).1 a d = "on" := by
        rw [hr2 root, h]
        have := hafter root (flashSucc "kedip") (by decide)
        rw [this]
        decide
       have h2 : observedFlash (dashboardFlash (dashboardFlash root a d).1 a d).1 a d
          = "off" := by
        rw [hr2 _, h1]
        have := hafter (dashboardFlash root a d).1 (flashSucc "on") (by decide)
        rw [this]
        decide
       have h3 : observedFlash
          (dashboardFlash (dashboardFlash (dashboardFlash root a d).1 a d).1 a d).1 a d
          = "kedip" := by
        rw [hr2 _, h2]
        have := hafter (dashboardFlash (dashboardFlash root a d).1 a d).1
          (flashSucc "off") (by decide)
        rw [this]
        decide
       refine ⟨rfl, by rw [h3, h], by rw [h2, h]; decide, by rw [h1, h]; decide,
         rfl, rfl, rfl⟩)
    | (have h1 : observedFlash (dashboardFlash root a d).1 a d = "off" := by
        rw [hr2 root, h]
        have := hafter root (flashSucc "on") (by decide)
        rw [this]
        decide
       have h2 : observedFlash (dashboardFlash (dashboardFlash root a d).1 a d).1 a d
          = "kedip" := by
        rw [hr2 _, h1]
        have := hafter (dashboardFlash root a d).1 (flashSucc "off") (by decide)
        rw [this]
        decide
       have h3 : observedFlash
          (dashboardFlash (dashboardFlash (dashboardFlash root a d).1 a d).1 a d).1 a d
          = "on" := by
        rw [hr2 _, h2]
        have := hafter (dashboardFlash (dashboardFlash root a d).1 a d).1
          (flashSucc "kedip") (by decide)
        rw [this]
        decide
       refine ⟨rfl, by rw [h3, h], by rw [h2, h]; decide, by rw [h1, h]; decide,
         rfl, rfl, rfl⟩)
  }

/-- A store for the C6 witness: device `D` of app `A` with no flash field,
so the observed flash state is the default `off`. -/
def c6Root : Node :=
  Node.dict [("A", Node.dict [("perangkat", Node.dict
    [("D", Node.dict [("nama_perangkat", Node.str "ponsel")])])])]

theorem c6_flash_cycle_witness :
    ((observedFlash c6Root "A" "D" = "off" ∨ observedFlash c6Root "A" "D" = "kedip" ∨
      observedFlash c6Root "A" "D" = "on") ∧
      isDict (devicesNodeOf c6Root "A") = true) ∧
    ((dashboardFlash c6Root "A" "D").2.1 =
      [(flashPath "A" "D", Node.str (flashSucc (observedFlash c6Root "A" "D")))] ∧
    observedFlash
      (dashboardFlash (dashboardFlash (dashboardFlash c6Root "A" "D").1 "A" "D").1 "A" "D").1
      "A" "D" = observedFlash c6Root "A" "D" ∧
    observedFlash (dashboardFlash (dashboardFlash c6Root "A" "D").1 "A" "D").1 "A" "D" ≠
      observedFlash c6Root "A" "D" ∧
    observedFlash (dashboardFlash c6Root "A" "D").1 "A" "D" ≠ observedFlash c6Root "A" "D" ∧
    (dashboardFlash c6Root "A" "D").2.2 =
      buildDeviceDetailView (dashboardFlash c6Root "A" "D").1 "A" "D" ∧
    (dashboardFlash (dashboardFlash c6Root "A" "D").1 "A" "D").2.2 =
      buildDeviceDetailView (dashboardFlash (dashboardFlash c6Root "A" "D").1 "A" "D").1 "A" "D" ∧
    (dashboardFlash (dashboardFlash (dashboardFlash c6Root "A" "D").1 "A" "D").1 "A" "D").2.2 =
      buildDeviceDetailView
        (dashboardFlash (dashboardFlash (dashboardFlash c6Root "A" "D").1 "A" "D").1 "A" "D").1
        "A" "D") :=
  ⟨⟨by decide, by decide⟩,
   c6_flash_cycle c6Root "A" "D" (by decide) (by decide)⟩

/-! ## Pending-action tracker and the free-text message handler -/

/-- The per-operator pending state: `context.user_data` holds two
independent keys, `device_message_target` and `app_edit_target`. -/
structure PendingState where
  deviceMessageTarget : Option (String × String)
  appEditTarget : Option (String × String)
deriving DecidableEq, Repr

/-- `context.user_data["device_message_target"] = {...}` (source line 585). -/
def armDeviceMsg (appKey devId : String) (p : PendingState) : PendingState :=
  { p with deviceMessageTarget := some (appKey, devId) }

/-- `context.user_data["app_edit_target"] = {"app_key":…, "field":
"keterangan"}` (source line 445). -/
def armEditDesc (appKey : String) (p : PendingState) : PendingState :=
  { p with appEditTarget := some (appKey, "keterangan") }

/-- `context.user_data["app_edit_target"] = {"app_key":…, "field":
"kiosk_mode_pin"}` (source line 468). -/
def armEditPin (appKey : String) (p : PendingState) : PendingState :=
  { p with appEditTarget := some (appKey, "kiosk_mode_pin") }

/-- `str.strip()` (over the same ASCII whitespace set as `isPyWs`). -/
def pyStrip (s : String) : String :=
  String.mk (((s.data.dropWhile isPyWs).reverse.dropWhile isPyWs).reverse)

/-- `str.isdigit()` on ASCII text: nonempty and all characters `0`-`9`
(CPython additionally accepts some non-ASCII digit characters; the theorems
below quantify over ASCII inputs). -/
def pyIsdigit (s : String) : Bool :=
  !s.data.isEmpty && s.data.all Char.isDigit

/-- `int()` of an all-digit string. -/
def pyIntOfDigits (s : String) : Int := Int.ofNat (digitsVal s.data)

/-- The app menu text replied after a committed app-field edit (source
line 723). -/
def appMenuText (appKey : String) : String :=
  "📱 Aplikasi: " ++ appKey ++ "\nPilih menu di bawah:"

/-- The outcome of one inbound free-text message. -/
structure TextResult where
  root : Node
  pending : PendingState
  writes : List Write
  replies : List String

/-- `device_message_handler` (source lines 684-742): authorization guard
(silent return on mismatch), then the `device_message_target` branch, then
the `app_edit_target` branch with its per-field behaviour. -/
def deviceMessageHandler (ownerId callerId : Int) (root : Node)
    (p : PendingState) (text : String) : TextResult :=
  if callerId = ownerId then
    match p.deviceMessageTarget with
    | some (ak, did) =>
      if ak = "" ∨ did = "" then ⟨root, p, [], []⟩
      else
        let root2 := setValueAt root [ak, "perangkat", did, "pesan_clear_virus"] (.str text)
        ⟨root2, { p with deviceMessageTarget := none },
         [([ak, "perangkat", did, "pesan_clear_virus"], .str text)],
         [(buildDeviceDetailView root2 ak did).1]⟩
    | none =>
      match p.appEditTarget with
      | some (ak, fld) =>
        if ak = "" ∨ fld = "" then ⟨root, p, [], []⟩
        else if fld = "keterangan" then
          ⟨setValueAt root [ak, "keterangan"] (.str text),
           { p with appEditTarget := none },
           [([ak, "keterangan"], .str text)], [appMenuText ak]⟩
        else if fld = "kiosk_mode_pin" then
          if pyIsdigit (pyStrip text) = false then
            ⟨root, p, [], ["PIN harus berupa angka."]⟩
          else
            ⟨setValueAt root [ak, "kiosk_mode_pin"] (.num (pyIntOfDigits (pyStrip text))),
             { p with appEditTarget := none },
             [([ak, "kiosk_mode_pin"], .num (pyIntOfDigits (pyStrip text)))],
             [appMenuText ak]⟩
        else ⟨root, p, [], []⟩
      | none => ⟨root, p, [], []⟩
  else ⟨root, p, [], []⟩

/-- C4 (amended): while a PIN edit is pending (and no device-message action
is pending, which would otherwise consume the text first), text whose
whitespace-stripped form is not composed entirely of decimal digits yields
exactly the validation-error reply with no store write and an unchanged
pending state; text whose stripped form is all digits writes the numeric
value of the stripped text to the app's `kiosk_mode_pin` path and clears
the pending app-edit action. -/
theorem c4_pin_validation (o : Int) (root : Node) (p : PendingState)
    (t1 t2 ak : String)
    (hdev : p.deviceMessageTarget = none)
    (happ : p.appEditTarget = some (ak, "kiosk_mode_pin"))
    (hak : ak ≠ "")
    (h1 : pyIsdigit (pyStrip t1) = false)
    (h2 : pyIsdigit (pyStrip t2) = true) :
    deviceMessageHandler o o root p t1 = ⟨root, p, [], ["PIN harus berupa angka."]⟩ ∧
    (deviceMessageHandler o o root p t2).writes =
      [([ak, "kiosk_mode_pin"], Node.num (pyIntOfDigits (pyStrip t2)))] ∧
    (deviceMessageHandler o o root p t2).pending.appEditTarget = none ∧
    (deviceMessageHandler o o root p t2).pending.deviceMessageTarget = none ∧
    (deviceMessageHandler o o root p t2).root =
      setValueAt root [ak, "kiosk_mode_pin"] (Node.num (pyIntOfDigits (pyStrip t2))) ∧
    (deviceMessageHandler o o root p t2).replies = [appMenuText ak] := by
  have hcond : ¬ (ak = "" ∨ ("kiosk_mode_pin" : String) = "") := by
    intro hc
    rcases hc with hc | hc
    · exact hak hc
    · exact absurd hc (by decide)
  constructor
  · simp only [deviceMessageHandler, if_pos rfl, hdev, happ]
    rw [if_neg hcond]
    simp [h1]
  · simp only [deviceMessageHandler, if_pos rfl, hdev, happ]
    rw [if_neg hcond]
    simp [h2, hdev]

/-- The pending state after pressing `dashboard_app_edit_pin:A1`. -/
def c4Pending : PendingState := ⟨none, some ("A1", "kiosk_mode_pin")⟩

/-- C4 counterexample: the message text `" 123 "` is not composed entirely
of decimal digits, yet the handler strips whitespace before the digit
check, so it is committed: the numeric PIN 123 is written, the pending
action is cleared, and no validation-error reply is produced — against the
claim, which requires a validation error and no write for any text that is
not entirely digits. -/
theorem c4_counterexample :
    (" 123 ".data.all Char.isDigit = false) ∧
    (deviceMessageHandler 1 1 (Node.dict []) c4Pending " 123 ").writes =
      [(["A1", "kiosk_mode_pin"], Node.num 123)] ∧
    (deviceMessageHandler 1 1 (Node.dict []) c4Pending " 123 ").pending.appEditTarget =
      none ∧
    (deviceMessageHandler 1 1 (Node.dict []) c4Pending " 123 ").replies ≠
      ["PIN harus berupa angka."] :=
  ⟨by decide, rfl, by decide, by decide⟩

theorem c4_pin_validation_witness :
    ((c4Pending.deviceMessageTarget = none ∧
      c4Pending.appEditTarget = some ("A1", "kiosk_mode_pin") ∧
      ("A1" : String) ≠ "" ∧
      pyIsdigit (pyStrip "12a") = false ∧
      pyIsdigit (pyStrip "4321") = true)) ∧
    (deviceMessageHandler 7 7 (Node.dict []) c4Pending "12a" =
      ⟨Node.dict [], c4Pending, [], ["PIN harus berupa angka."]⟩ ∧
    (deviceMessageHandler 7 7 (Node.dict []) c4Pending "4321").writes =
      [(["A1", "kiosk_mode_pin"], Node.num (pyIntOfDigits (pyStrip "4321")))] ∧
    (deviceMessageHandler 7 7 (Node.dict []) c4Pending "4321").pending.appEditTarget = none ∧
    (deviceMessageHandler 7 7 (Node.dict []) c4Pending "4321").pending.deviceMessageTarget = none ∧
    (deviceMessageHandler 7 7 (Node.dict []) c4Pending "4321").root =
      setValueAt (Node.dict []) ["A1", "kiosk_mode_pin"]
        (Node.num (pyIntOfDigits (pyStrip "4321"))) ∧
    (deviceMessageHandler 7 7 (Node.dict []) c4Pending "4321").replies =
      [appMenuText "A1"]) :=
  ⟨⟨rfl, rfl, by decide, by decide, by decide⟩,
   c4_pin_validation 7 (Node.dict []) c4Pending "12a" "4321" "A1"
     rfl rfl (by decide) (by decide) (by decide)⟩

/-- C9: when both a device-message action and an app-field action are
pending (in their independent slots), the next free-text message is always
consumed by the device-message action — the handler checks that slot first,
regardless of arming order — and committing it clears only the
device-message slot, leaving the app-edit slot armed, so the following
message commits the app edit. -/
theorem c9_device_slot_priority (o : Int) (root : Node) (p : PendingState)
    (t1 t2 ak did ak2 : String)
    (hdev : p.deviceMessageTarget = some (ak, did))
    (hak : ak ≠ "") (hdid : did ≠ "")
    (happ : p.appEditTarget = some (ak2, "keterangan")) (hak2 : ak2 ≠ "") :
    (deviceMessageHandler o o root p t1).writes =
      [([ak, "perangkat", did, "pesan_clear_virus"], Node.str t1)] ∧
    (deviceMessageHandler o o root p t1).pending.deviceMessageTarget = none ∧
    (deviceMessageHandler o o root p t1).pending.appEditTarget =
      some (ak2, "keterangan") ∧
    (deviceMessageHandler o o (deviceMessageHandler o o root p t1).root
        (deviceMessageHandler o o root p t1).pending t2).writes =
      [([ak2, "keterangan"], Node.str t2)] ∧
    (deviceMessageHandler o o (deviceMessageHandler o o root p t1).root
        (deviceMessageHandler o o root p t1).pending t2).pending.appEditTarget = none ∧
    (deviceMessageHandler o o (deviceMessageHandler o o root p t1).root
        (deviceMessageHandler o o root p t1).pending t2).pending.deviceMessageTarget =
      none := by
  have hcond1 : ¬ (ak = "" ∨ did = "") := by
    intro hc
    rcases hc with hc | hc
    · exact hak hc
    · exact hdid hc
  have hcond2 : ¬ (ak2 = "" ∨ ("keterangan" : String) = "") := by
    intro hc
    rcases hc with hc | hc
    · exact hak2 hc
    · exact absurd hc (by decide)
  have hstep1 : deviceMessageHandler o o root p t1 =
      ⟨setValueAt root [ak, "perangkat", did, "pesan_clear_virus"] (.str t1),
       { p with deviceMessageTarget := none },
       [([ak, "perangkat", did, "pesan_clear_virus"], .str t1)],
       [(buildDeviceDetailView
          (setValueAt root [ak, "perangkat", did, "pesan_clear_virus"] (.str t1))
          ak did).1]⟩ := by
    simp only [deviceMessageHandler, if_pos rfl, hdev]
    rw [if_neg hcond1]
    simp
  rw [hstep1]
  refine ⟨rfl, rfl, happ, ?_, ?_, ?_⟩
  all_goals {
    simp only [deviceMessageHandler, if_pos rfl, happ]
    rw [if_neg hcond2]
    simp
  }

/-- A pending state with both slots armed, for the C9 witness. -/
def c9Pending : PendingState := ⟨some ("A", "D"), some ("B", "keterangan")⟩

theorem c9_device_slot_priority_witness :
    (c9Pending.deviceMessageTarget = some ("A", "D") ∧
     ("A" : String) ≠ "" ∧ ("D" : String) ≠ "" ∧
     c9Pending.appEditTarget = some ("B", "keterangan") ∧ ("B" : String) ≠ "") ∧
    ((deviceMessageHandler 1 1 (Node.dict []) c9Pending "halo").writes =
      [(["A", "perangkat", "D", "pesan_clear_virus"], Node.str "halo")] ∧
    (deviceMessageHandler 1 1 (Node.dict []) c9Pending "halo").pending.deviceMessageTarget =
      none ∧
    (deviceMessageHandler 1 1 (Node.dict []) c9Pending "halo").pending.appEditTarget =
      some ("B", "keterangan") ∧
    (deviceMessageHandler 1 1 (deviceMessageHandler 1 1 (Node.dict []) c9Pending "halo").root
        (deviceMessageHandler 1 1 (Node.dict []) c9Pending "halo").pending "ket").writes =
      [(["B", "keterangan"], Node.str "ket")] ∧
    (deviceMessageHandler 1 1 (deviceMessageHandler 1 1 (Node.dict []) c9Pending "halo").root
        (deviceMessageHandler 1 1 (Node.dict []) c9Pending "halo").pending "ket").pending.appEditTarget =
      none ∧
    (deviceMessageHandler 1 1 (deviceMessageHandler 1 1 (Node.dict []) c9Pending "halo").root
        (deviceMessageHandler 1 1 (Node.dict []) c9Pending "halo").pending "ket").pending.deviceMessageTarget =
      none) :=
  ⟨⟨rfl, by decide, by decide, rfl, by decide⟩,
   c9_device_slot_priority 1 (Node.dict []) c9Pending "halo" "ket" "A" "D" "B"
     rfl (by decide) (by decide) rfl (by decide)⟩

/-! ## The callback dispatcher (`dashboard_callback`) -/

/-- Whether the first list starts the second (used for `str.startswith`). -/
def leadsWith : List Char → List Char → Bool
  | [], _ => true
  | _ :: _, [] => false
  | p :: ps, c :: cs => p = c && leadsWith ps cs

/-- `s.startswith(pre)`. -/
def strStartsWith (s pre : String) : Bool := leadsWith pre.data s.data

/-- Everything after the first occurrence of `c` (empty when absent; all
uses are behind a `startswith` guard that guarantees an occurrence). -/
def afterChar (c : Char) : List Char → List Char
  | [] => []
  | x :: xs => if x = c then xs else afterChar c xs

/-- `s.split(":", 1)[1]` under a `startswith` guard whose prefix contains
the first colon of `s`. -/
def splitSeg1 (s : String) : String := String.mk (afterChar ':' s.data)

/-- Re-join split pieces with `:`. -/
def joinColon : List (List Char) → List Char
  | [] => []
  | [x] => x
  | x :: xs => x ++ ':' :: joinColon xs

/-- `s.split(":", 2)`: at most three parts, the third keeping any further
colons. -/
def pySplit2 (s : String) : List String :=
  match splitChar ':' s.data with
  | [] => [""]
  | [p0] => [String.mk p0]
  | [p0, p1] => [String.mk p0, String.mk p1]
  | p0 :: p1 :: rest => [String.mk p0, String.mk p1, String.mk (joinColon rest)]

/-- The two positional arguments of a three-part token (empty when the
token has fewer than three parts), as in the `device`/`msg`/`sound`/`flash`
branches. -/
def parts3 (s : String) : String × String :=
  match pySplit2 s with
  | [_, a, b] => (a, b)
  | _ => ("", "")

/-- The `(app_key, selected_date)` arguments of a `dashboard_devices:`
token: a missing third part defaults to an empty selected date. -/
def partsDevices (s : String) : String × String :=
  match pySplit2 s with
  | [_, a, b] => (a, b)
  | [_, a] => (a, "")
  | _ => ("", "")

/-- The four-row root dashboard keyboard. -/
def mainKeyboard : List (List Button) :=
  [[("🔄 Refresh", "dashboard_refresh"), ("📋 Lihat semua", "dashboard_list")],
   [("📱 Aplikasi", "dashboard_apps")],
   [("➕ Panduan tambah data", "dashboard_help_set")]]

/-- The dashboard data preview (source lines 333-348): up to five items,
80-character value truncation, then a hard cut of the joined text at 1000
characters. -/
def previewText (root : Node) : String :=
  let preview_items := (listKeys root).take 5
  if preview_items.isEmpty then "Belum ada data yang tersimpan."
  else
    let preview_lines := preview_items.map (fun kv =>
      kv.1 ++ " = " ++
        (match kv.2 with
         | .dict f => "[object] " ++ toString f.length ++ " item"
         | v =>
           let r := pyStr v
           if 80 < r.length then String.mk (r.data.take 80) ++ "..." else r))
    let t := String.intercalate "\n" preview_lines
    if 1000 < t.length then String.mk (t.data.take 1000) ++ "..." else t

/-- The root dashboard screen (default/refresh branch). -/
def dashboardMainScreen (root : Node) : Screen :=
  ("📊 Dashboard Owner\nTotal data tersimpan: " ++ toString (listKeys root).length ++
    "\n\nCuplikan data:\n" ++ previewText root ++ "\n\nPilih aksi di bawah:",
   mainKeyboard)

/-- The `dashboard_list` branch.  In the source this branch assigns only
`text` and never `keyboard`, so CPython raises `UnboundLocalError` at the
final `InlineKeyboardMarkup(keyboard)` and no keyboard is sent; the screen
is modelled with the computed text and an empty keyboard. -/
def dashboardListScreen (root : Node) : Screen :=
  (if (listKeys root).isEmpty then "📋 Tidak ada data di Firebase."
   else "📋 Semua data:\n" ++ String.intercalate "\n" (renderListLines (listKeys root)),
   [])

/-- The `dashboard_apps` branch (source lines 374-402). -/
def dashboardApps (root : Node) : Screen :=
  let aplikasi_node := pyOrNode (getValue root "aplikasi") (.dict [])
  if pyTruthy aplikasi_node = false then
    ("Tidak ada data 'aplikasi' di Firebase.", mainKeyboard)
  else
    let buttons := (dictFields aplikasi_node).map
      (fun kv => [(pyStr kv.2, "dashboard_app:" ++ pyStr kv.2)])
    ("📱 Pilih aplikasi:",
     buttons ++ [[("⬅️ Kembali ke dashboard", "dashboard_refresh")]])

/-- The app menu keyboard (source lines 418-434 and 724-740). -/
def appMenuKeyboard (appKey : String) : List (List Button) :=
  [[("📱 Perangkat", "dashboard_devices:" ++ appKey)],
   [("📝 Ubah keterangan", "dashboard_app_edit_desc:" ++ appKey)],
   [("🔐 Ubah PIN aplikasi", "dashboard_app_edit_pin:" ++ appKey)],
   [("⬅️ Kembali ke daftar aplikasi", "dashboard_apps")],
   [("📊 Kembali ke dashboard", "dashboard_refresh")]]

/-- The `dashboard_app:` branch (source lines 403-434). -/
def dashboardApp (root : Node) (appKey : String) : Screen :=
  let app_data := pyOrNode (getValue root appKey) (.dict [])
  if pyTruthy app_data = false then
    ("Data aplikasi '" ++ appKey ++ "' tidak ditemukan di Firebase.",
     [[("⬅️ Kembali ke daftar aplikasi", "dashboard_apps")],
      [("📊 Kembali ke dashboard", "dashboard_refresh")]])
  else
    (appMenuText appKey, appMenuKeyboard appKey)

/-- The `dashboard_app_edit_desc:` prompt screen (source lines 435-456). -/
def dashboardEditDesc (root : Node) (appKey : String) : Screen :=
  let app_data := pyOrNode (getValue root appKey) (.dict [])
  let current_desc :=
    if isDict app_data then pyStr (pyGetOr (dictFields app_data) "keterangan" (.str ""))
    else ""
  let preview :=
    if 300 < current_desc.length then String.mk (current_desc.data.take 300) ++ "..."
    else current_desc
  ("📝 Ubah keterangan aplikasi: " ++ appKey ++ "\n\nKeterangan saat ini:\n" ++
    (if preview = "" then "(kosong)" else preview) ++
    "\n\nKirim keterangan baru di chat ini.\nAtau klik '❌ Batalkan' untuk kembali tanpa mengubah.",
   [[("❌ Batalkan", "dashboard_app:" ++ appKey)]])

/-- The `dashboard_app_edit_pin:` prompt screen (source lines 457-479).
Note the current PIN uses an `is None` check, not truthiness, so a stored
PIN of 0 renders as `0`. -/
def dashboardEditPin (root : Node) (appKey : String) : Screen :=
  let app_data := pyOrNode (getValue root appKey) (.dict [])
  let pin_text :=
    if isDict app_data then
      match lookupField (dictFields app_data) "kiosk_mode_pin" with
      | none => ""
      | some v => pyStr v
    else ""
  ("🔐 Ubah PIN aplikasi: " ++ appKey ++ "\n\nPIN saat ini: " ++
    (if pin_text = "" then "(belum diset)" else pin_text) ++
    "\n\nKirim PIN baru (hanya angka) di chat ini.\nAtau klik '❌ Batalkan' untuk kembali tanpa mengubah.",
   [[("❌ Batalkan", "dashboard_app:" ++ appKey)]])

/-- The `dashboard_msg:` prompt screen (source lines 577-598). -/
def dashboardMsgPrompt (appKey devId : String) : Screen :=
  ("📱 Kirim pesan baru untuk perangkat: " ++ devId ++ "\naplikasi: " ++ appKey ++
    "\n\nKirim teks pesan di chat ini, dan pesan akan disimpan sebagai 'pesan_clear_virus'.",
   [[("⬅️ Kembali ke perangkat", "dashboard_device:" ++ appKey ++ ":" ++ devId)],
    [("📊 Kembali ke dashboard", "dashboard_refresh")]])

/-- The `dashboard_help_set` screen (source lines 640-659). -/
def helpSetScreen : Screen :=
  ("➕ Panduan tambah data:\nGunakan perintah:\n/set <key> <value>\n\nContoh:\n/set greeting Halo dunia",
   mainKeyboard)

/-- The outcome of one inbound button press. -/
structure CbResult where
  root : Node
  pending : PendingState
  writes : List Write
  screen : Screen

/-- `dashboard_callback` (source lines 320-681): the authorization guard,
then the token dispatch in source order, each branch over the helpers
above.  The arming branches update the corresponding pending slot; the
sound/flash branches write; everything else is read-only. -/
def dashboardCallback (ownerId callerId : Int) (root : Node) (p : PendingState)
    (token : String) : CbResult :=
  if callerId = ownerId then
    if token = "dashboard_list" then
      ⟨root, p, [], dashboardListScreen root⟩
    else if token = "dashboard_apps" then
      ⟨root, p, [], dashboardApps root⟩
    else if strStartsWith token "dashboard_app:" then
      ⟨root, p, [], dashboardApp root (splitSeg1 token)⟩
    else if strStartsWith token "dashboard_app_edit_desc:" then
      let ak := splitSeg1 token
      ⟨root, armEditDesc ak p, [], dashboardEditDesc root ak⟩
    else if strStartsWith token "dashboard_app_edit_pin:" then
      let ak := splitSeg1 token
      ⟨root, armEditPin ak p, [], dashboardEditPin root ak⟩
    else if strStartsWith token "dashboard_devices:" then
      let pr := partsDevices token
      ⟨root, p, [], dashboardDevices root pr.1 pr.2⟩
    else if strStartsWith token "dashboard_device:" then
      let pr := parts3 token
      ⟨root, p, [], buildDeviceDetailView root pr.1 pr.2⟩
    else if strStartsWith token "dashboard_msg:" then
      let pr := parts3 token
      ⟨root, armDeviceMsg pr.1 pr.2 p, [], dashboardMsgPrompt pr.1 pr.2⟩
    else if strStartsWith token "dashboard_sound:" then
      let pr := parts3 token
      let r := dashboardSound root pr.1 pr.2
      ⟨r.1, p, r.2.1, r.2.2⟩
    else if strStartsWith token "dashboard_flash:" then
      let pr := parts3 token
      let r := dashboardFlash root pr.1 pr.2
      ⟨r.1, p, r.2.1, r.2.2⟩
    else if token = "dashboard_help_set" then
      ⟨root, p, [], helpSetScreen⟩
    else
      ⟨root, p, [], dashboardMainScreen root⟩
  else ⟨root, p, [], ("Dashboard hanya bisa diakses oleh owner bot.", [])⟩

/-- C7 (amended): on an identity mismatch a button press changes no state,
performs no write, and renders the fixed access-denied message, while a
free-text message changes no state, performs no write, and produces NO
reply at all (the text handler returns silently). -/
theorem c7_unauthorized (o c : Int) (root : Node) (p : PendingState)
    (token text : String) (h : ¬ c = o) :
    dashboardCallback o c root p token =
      ⟨root, p, [], ("Dashboard hanya bisa diakses oleh owner bot.", [])⟩ ∧
    deviceMessageHandler o c root p text = ⟨root, p, [], []⟩ := by
  constructor
  · simp only [dashboardCallback, if_neg h]
  · simp only [deviceMessageHandler, if_neg h]

/-- C7 counterexample: an unauthorized free-text message produces no reply
at all — in particular not a fixed access-denied message — while an
unauthorized button press does render the fixed denied text; the claim that
every handler replies with an access-denied message is therefore false for
text events. -/
theorem c7_counterexample :
    (deviceMessageHandler 1 2 (Node.dict []) ⟨none, none⟩ "halo").replies = [] ∧
    (1 : Int) ≠ 2 ∧
    (dashboardCallback 1 2 (Node.dict []) ⟨none, none⟩ "dashboard_refresh").screen.1 =
      "Dashboard hanya bisa diakses oleh owner bot." :=
  ⟨rfl, by decide, rfl⟩

theorem c7_unauthorized_witness :
    ¬ (2 : Int) = 1 ∧
    (dashboardCallback 1 2 (Node.dict [("k", Node.str "v")]) ⟨none, none⟩ "dashboard_list" =
      ⟨Node.dict [("k", Node.str "v")], ⟨none, none⟩, [],
       ("Dashboard hanya bisa diakses oleh owner bot.", [])⟩ ∧
    deviceMessageHandler 1 2 (Node.dict [("k", Node.str "v")]) ⟨none, none⟩ "teks" =
      ⟨Node.dict [("k", Node.str "v")], ⟨none, none⟩, [], []⟩) :=
  ⟨by decide,
   c7_unauthorized 1 2 (Node.dict [("k", Node.str "v")]) ⟨none, none⟩
     "dashboard_list" "teks" (by decide)⟩

/-- C1 (amended): each arming operation replaces any previously armed
pending action of its own kind — the description and PIN edits share the
single `app_edit_target` slot, the device message has its own
`device_message_target` slot — and leaves the other kind's slot untouched;
when both slots are armed, the next free-text message is consumed by the
device-message action regardless of arming order, leaving the app-edit slot
as it was. -/
theorem c1_arming_slots (p : PendingState) (a b dev dev2 : String) :
    (armEditDesc b (armEditPin a p)).appEditTarget = some (b, "keterangan") ∧
    (armEditPin b (armEditDesc a p)).appEditTarget = some (b, "kiosk_mode_pin") ∧
    (armDeviceMsg b dev2 (armDeviceMsg a dev p)).deviceMessageTarget = some (b, dev2) ∧
    (armEditDesc a p).deviceMessageTarget = p.deviceMessageTarget ∧
    (armEditPin a p).deviceMessageTarget = p.deviceMessageTarget ∧
    (armDeviceMsg a dev p).appEditTarget = p.appEditTarget ∧
    (∀ (o : Int) (root : Node) (t ak did : String),
      p.deviceMessageTarget = some (ak, did) → ak ≠ "" → did ≠ "" →
      (deviceMessageHandler o o root p t).writes =
        [([ak, "perangkat", did, "pesan_clear_virus"], Node.str t)] ∧
      (deviceMessageHandler o o root p t).pending.appEditTarget = p.appEditTarget) := by
  refine ⟨rfl, rfl, rfl, rfl, rfl, rfl, ?_⟩
  intro o root t ak did hdev hak hdid
  have hcond : ¬ (ak = "" ∨ did = "") := by
    intro hc
    rcases hc with hc | hc
    · exact hak hc
    · exact hdid hc
  constructor <;>
    (simp only [deviceMessageHandler, if_pos rfl, hdev]; rw [if_neg hcond]; simp)

/-- C1 counterexample: pressing `dashboard_msg:A:D` and then
`dashboard_app_edit_desc:B` leaves BOTH actions pending simultaneously —
the second arming does not replace the first — and the next free-text
message is consumed by the device-message action, which was armed FIRST,
writing to `A`'s device message path rather than to `B`'s description.
This refutes both "at most one pending action exists at a time" and
"last-armed wins". -/
theorem c1_counterexample :
    (dashboardCallback 1 1 (Node.dict [])
      (dashboardCallback 1 1 (Node.dict []) ⟨none, none⟩ "dashboard_msg:A:D").pending
      "dashboard_app_edit_desc:B").pending =
      ⟨some ("A", "D"), some ("B", "keterangan")⟩ ∧
    (deviceMessageHandler 1 1 (Node.dict [])
      (dashboardCallback 1 1 (Node.dict [])
        (dashboardCallback 1 1 (Node.dict []) ⟨none, none⟩ "dashboard_msg:A:D").pending
        "dashboard_app_edit_desc:B").pending "halo").writes =
      [(["A", "perangkat", "D", "pesan_clear_virus"], Node.str "halo")] :=
  ⟨by decide, rfl⟩

theorem c1_arming_slots_witness :
    ((armEditDesc "B" (armEditPin "A" ⟨some ("A", "D"), none⟩)).appEditTarget =
      some ("B", "keterangan") ∧
    (armEditPin "B" (armEditDesc "A" ⟨some ("A", "D"), none⟩)).appEditTarget =
      some ("B", "kiosk_mode_pin") ∧
    (armDeviceMsg "B" "D2" (armDeviceMsg "A" "D" ⟨some ("A", "D"), none⟩)).deviceMessageTarget =
      some ("B", "D2") ∧
    (armEditDesc "A" ⟨some ("A", "D"), none⟩).deviceMessageTarget =
      (⟨some ("A", "D"), none⟩ : PendingState).deviceMessageTarget ∧
    (armEditPin "A" ⟨some ("A", "D"), none⟩).deviceMessageTarget =
      (⟨some ("A", "D"), none⟩ : PendingState).deviceMessageTarget ∧
    (armDeviceMsg "A" "D" ⟨some ("A", "D"), none⟩).appEditTarget =
      (⟨some ("A", "D"), none⟩ : PendingState).appEditTarget ∧
    (∀ (o : Int) (root : Node) (t ak did : String),
      (⟨some ("A", "D"), none⟩ : PendingState).deviceMessageTarget = some (ak, did) →
      ak ≠ "" → did ≠ "" →
      (deviceMessageHandler o o root ⟨some ("A", "D"), none⟩ t).writes =
        [([ak, "perangkat", did, "pesan_clear_virus"], Node.str t)] ∧
      (deviceMessageHandler o o root ⟨some ("A", "D"), none⟩ t).pending.appEditTarget =
        (⟨some ("A", "D"), none⟩ : PendingState).appEditTarget)) ∧
    ((deviceMessageHandler 3 3 (Node.dict []) ⟨some ("A", "D"), some ("B", "keterangan")⟩ "hi").writes =
      [(["A", "perangkat", "D", "pesan_clear_virus"], Node.str "hi")] ∧
    (deviceMessageHandler 3 3 (Node.dict []) ⟨some ("A", "D"), some ("B", "keterangan")⟩ "hi").pending.appEditTarget =
      (⟨some ("A", "D"), some ("B", "keterangan")⟩ : PendingState).appEditTarget) :=
  ⟨c1_arming_slots ⟨some ("A", "D"), none⟩ "A" "B" "D" "D2",
   (c1_arming_slots ⟨some ("A", "D"), some ("B", "keterangan")⟩ "A" "B" "D" "D2").2.2.2.2.2.2
     3 (Node.dict []) "hi" "A" "D" rfl (by decide) (by decide)⟩

end ClearVirus
